import Mathlib

/-!
Verification development for the Ref39TopicAssistant backend (Rust, axum + sqlx + tantivy).

The development shallowly embeds the versioned record store
(`src/backend/src/db/repository.rs`), the API handlers
(`src/backend/src/api/*.rs`), the error model (`src/backend/src/errors/mod.rs`)
and the search entry points (`src/backend/src/search/mod.rs`,
`src/backend/src/api/search.rs`).

Modelling conventions:
- The SQLite tables are lists of row records (`MemberRow`, `TagRow`, `TopicRow`)
  holding the column values exactly as bound by the SQL statements; the
  singleton `meta` row is inlined into `Store`.
- `i64` / `i32` columns are modelled as `Int`, `usize` as `Nat`; timestamps and
  UUIDs are opaque `String` parameters (`now`, `id`) supplied by the caller,
  standing for `Utc::now().to_rfc3339()` and `uuid::Uuid::new_v4()`.
- `serde_json::to_string` on `Vec<String>` and `serde_json::from_str` (as used
  by `parse_json_array`) are modelled character-exactly on the canonical
  serde_json output format (`["a","b"]`, with serde_json's string escaping);
  the parser carries a fuel argument bounded by the input length, which the
  canonical grammar never exhausts.
- Each repository operation returns its `Result` together with the store after
  the call; an error return carries the store exactly as the database left it
  (transactions roll back, failed conditional writes touch no row).
- The tantivy searcher is an external collaborator: it is abstracted as a
  ranking oracle `engine : String → Option (List SearchResult)` giving the
  score-ordered hits for a parsed query (`none` = query parse failure), while
  the code around it — the blank-query guard, `TopDocs::with_limit(limit +
  offset)`, `skip(offset).take(limit)`, and the API-side limit clamp — is
  embedded from the source. Scores (`f32`) are abstracted as `Nat`, no claim
  depends on score arithmetic.
-/

/-! ### JSON string-array encoding at the storage boundary

`serde_json::to_string(&Vec<String>)` and the decoding side of
`parse_json_array` (repository.rs line 891), restricted to serde_json's
canonical output grammar. -/

/-- Lower-case hex digit, as emitted by serde_json in `\u00XX` escapes. -/
def hexDigit (n : Nat) : Char :=
  if n < 10 then Char.ofNat (48 + n) else Char.ofNat (87 + n)

/-- Value of a hex digit character (serde_json accepts both cases). -/
def hexVal (c : Char) : Option Nat :=
  if 48 ≤ c.toNat ∧ c.toNat ≤ 57 then some (c.toNat - 48)
  else if 97 ≤ c.toNat ∧ c.toNat ≤ 102 then some (c.toNat - 87)
  else if 65 ≤ c.toNat ∧ c.toNat ≤ 70 then some (c.toNat - 55)
  else none

/-- serde_json's escaping of one character inside a JSON string:
quote and backslash get a two-character escape, control characters get the
short escapes `\b \t \n \f \r` or `\u00XX`, everything else is literal. -/
def escapeJsonChar (c : Char) : List Char :=
  if c = '\"' then ['\\', '\"']
  else if c = '\\' then ['\\', '\\']
  else if c.toNat < 32 then
    if c.toNat = 8 then ['\\', 'b']
    else if c.toNat = 9 then ['\\', 't']
    else if c.toNat = 10 then ['\\', 'n']
    else if c.toNat = 12 then ['\\', 'f']
    else if c.toNat = 13 then ['\\', 'r']
    else ['\\', 'u', '0', '0', hexDigit (c.toNat / 16), hexDigit (c.toNat % 16)]
  else [c]

/-- Characters of one encoded JSON string, surrounding quotes included. -/
def encStrChars (s : String) : List Char :=
  '\"' :: (s.toList.flatMap escapeJsonChar ++ ['\"'])

/-- Characters following the opening bracket of the serde_json encoding of a
string array. -/
def encodeArrBody : List String → List Char
  | [] => [']']
  | [s] => encStrChars s ++ [']']
  | s :: rest => encStrChars s ++ ',' :: encodeArrBody rest

/-- `serde_json::to_string(&Vec<String>)`: `[]`, `["a"]`, `["a","b"]`, … -/
def encodeJsonArray (l : List String) : String :=
  String.mk ('[' :: encodeArrBody l)

/-- Unescaped meaning of a short escape character after a backslash. -/
def escChar (c : Char) : Option Char :=
  if c = '\"' then some '\"'
  else if c = '\\' then some '\\'
  else if c = '/' then some '/'
  else if c = 'b' then some (Char.ofNat 8)
  else if c = 'f' then some (Char.ofNat 12)
  else if c = 'n' then some '\n'
  else if c = 'r' then some '\r'
  else if c = 't' then some '\t'
  else none

/-- Parse the body of a JSON string (after the opening quote); returns the
decoded characters and the input remaining after the closing quote. Every
step consumes at least one input character, so fuel ≥ input length never
runs out. -/
def parseJsonStringBody : Nat → List Char → Option (List Char × List Char)
  | 0, _ => none
  | _ + 1, [] => none
  | fuel + 1, c :: rest =>
    if c = '\"' then some ([], rest)
    else if c = '\\' then
      match rest with
      | [] => none
      | e :: rest1 =>
        if e = 'u' then
          match rest1 with
          | h1 :: h2 :: h3 :: h4 :: rest2 =>
            match hexVal h1, hexVal h2, hexVal h3, hexVal h4 with
            | some a, some b, some c2, some d =>
              (parseJsonStringBody fuel rest2).map
                (fun p => (Char.ofNat (((a * 16 + b) * 16 + c2) * 16 + d) :: p.1, p.2))
            | _, _, _, _ => none
          | _ => none
        else
          match escChar e with
          | some c2 => (parseJsonStringBody fuel rest1).map (fun p => (c2 :: p.1, p.2))
          | none => none
    else (parseJsonStringBody fuel rest).map (fun p => (c :: p.1, p.2))

/-- Parse a nonempty comma-separated sequence of JSON strings terminated by
`]` at the very end of the input (fuel bounds the number of elements). -/
def parseJsonStrings : Nat → List Char → Option (List (List Char))
  | 0, _ => none
  | fuel + 1, l =>
    match l with
    | '\"' :: rest =>
      match parseJsonStringBody rest.length rest with
      | some (s, ',' :: rest1) => (parseJsonStrings fuel rest1).map (fun t => s :: t)
      | some (s, ']' :: []) => some [s]
      | _ => none
    | _ => none

/-- `parse_json_array` (repository.rs line 891): `serde_json::from_str::<Vec<String>>`
with `unwrap_or_default`, on serde_json's canonical grammar; any parse failure
yields `[]` (the empty array `[]` parses to `[]` via the failure default,
which coincides with its JSON meaning). -/
def parse_json_array (s : String) : List String :=
  match s.toList with
  | '[' :: rest =>
    match parseJsonStrings rest.length rest with
    | some elems => elems.map (fun l => String.mk l)
    | none => []
  | _ => []

lemma hexVal_hexDigit : ∀ n, n < 16 → hexVal (hexDigit n) = some n := by decide

lemma escapeJsonChar_length_pos (c : Char) : 1 ≤ (escapeJsonChar c).length := by
  unfold escapeJsonChar
  split_ifs <;> simp

lemma flatMap_escape_length_ge (cs : List Char) :
    cs.length ≤ (cs.flatMap escapeJsonChar).length := by
  induction cs with
  | nil => simp
  | cons c cs ih =>
    have := escapeJsonChar_length_pos c
    simp only [List.flatMap_cons, List.length_append, List.length_cons]
    omega

lemma parseJsonStringBody_enc (cs : List Char) :
    ∀ (rest : List Char) (fuel : Nat), cs.length < fuel →
    parseJsonStringBody fuel (cs.flatMap escapeJsonChar ++ '\"' :: rest) = some (cs, rest) := by
  induction cs with
  | nil =>
    intro rest fuel hfuel
    match fuel, hfuel with
    | fuel + 1, _ => simp [parseJsonStringBody]
  | cons c cs ih =>
    intro rest fuel hfuel
    match fuel, hfuel with
    | fuel + 1, hfuel =>
    have hcs : cs.length < fuel := by simpa using hfuel
    have ihr := ih rest fuel hcs
    by_cases hq : c = '\"'
    · subst hq
      simp [escapeJsonChar, parseJsonStringBody, escChar]
      simpa using ihr
    · by_cases hb : c = '\\'
      · subst hb
        simp [escapeJsonChar, parseJsonStringBody, escChar]
        simpa using ihr
      · by_cases hc : c.toNat < 32
        · have hofn : Char.ofNat c.toNat = c := Char.ofNat_toNat c
          by_cases h8 : c.toNat = 8
          · have hc8 : c = Char.ofNat 8 := by rw [← h8, Char.ofNat_toNat]
            subst hc8
            simp [escapeJsonChar, parseJsonStringBody, escChar]
            simpa using ihr
          · by_cases h9 : c.toNat = 9
            · have hc9 : c = Char.ofNat 9 := by rw [← h9, Char.ofNat_toNat]
              subst hc9
              simp [escapeJsonChar, parseJsonStringBody, escChar]
              simpa using ihr
            · by_cases h10 : c.toNat = 10
              · have hc10 : c = Char.ofNat 10 := by rw [← h10, Char.ofNat_toNat]
                subst hc10
                simp [escapeJsonChar, parseJsonStringBody, escChar]
                simpa using ihr
              · by_cases h12 : c.toNat = 12
                · have hc12 : c = Char.ofNat 12 := by rw [← h12, Char.ofNat_toNat]
                  subst hc12
                  simp [escapeJsonChar, parseJsonStringBody, escChar]
                  simpa using ihr
                · by_cases h13 : c.toNat = 13
                  · have hc13 : c = Char.ofNat 13 := by rw [← h13, Char.ofNat_toNat]
                    subst hc13
                    simp [escapeJsonChar, parseJsonStringBody, escChar]
                    simpa using ihr
                  · have hdiv : c.toNat / 16 < 16 := by omega
                    have hmod : c.toNat % 16 < 16 := Nat.mod_lt _ (by omega)
                    have e0 : hexVal '0' = some 0 := by decide
                    have e1 := hexVal_hexDigit _ hdiv
                    have e2 := hexVal_hexDigit _ hmod
                    have ihr' : parseJsonStringBody fuel
                        ((List.map escapeJsonChar cs).flatten ++ '\"' :: rest)
                        = some (cs, rest) := by simpa using ihr
                    have hdm1 : c.toNat / 16 * 16 + c.toNat % 16 = c.toNat := by omega
                    have hdm2 : 16 * (c.toNat / 16) + c.toNat % 16 = c.toNat := by omega
                    simp [escapeJsonChar, hq, hb, hc, h8, h9, h10, h12, h13,
                      parseJsonStringBody, e0, e1, e2, ihr', hdm1, hdm2, hofn, ihr]
        · simp [escapeJsonChar, hq, hb, hc, parseJsonStringBody]
          simpa using ihr

lemma parseJsonStrings_cons (fuel : Nat) (rest : List Char) :
    parseJsonStrings (fuel + 1) ('\"' :: rest)
      = (match parseJsonStringBody rest.length rest with
         | some (s1, ',' :: rest1) => (parseJsonStrings fuel rest1).map (fun t => s1 :: t)
         | some (s1, ']' :: []) => some [s1]
         | _ => none) := rfl

lemma parseJsonStrings_step_more (fuel : Nat) (s : String) (B : List Char) :
    parseJsonStrings (fuel + 1) (encStrChars s ++ ',' :: B)
      = (parseJsonStrings fuel B).map (fun t => s.toList :: t) := by
  have hassoc : encStrChars s ++ ',' :: B
      = '\"' :: (s.toList.flatMap escapeJsonChar ++ '\"' :: (',' :: B)) := by
    simp [encStrChars]
  have hlen : s.toList.length
      < (s.toList.flatMap escapeJsonChar ++ '\"' :: (',' :: B)).length := by
    have := flatMap_escape_length_ge s.toList
    simp only [List.length_append, List.length_cons]
    omega
  have hbody := parseJsonStringBody_enc s.toList (',' :: B)
    (s.toList.flatMap escapeJsonChar ++ '\"' :: (',' :: B)).length hlen
  rw [hassoc, parseJsonStrings_cons, hbody]
  rfl

lemma parseJsonStrings_step_last (fuel : Nat) (s : String) :
    parseJsonStrings (fuel + 1) (encStrChars s ++ [']']) = some [s.toList] := by
  have hassoc : encStrChars s ++ [']']
      = '\"' :: (s.toList.flatMap escapeJsonChar ++ '\"' :: [']']) := by
    simp [encStrChars]
  have hlen : s.toList.length
      < (s.toList.flatMap escapeJsonChar ++ '\"' :: [']']).length := by
    have := flatMap_escape_length_ge s.toList
    simp only [List.length_append, List.length_cons]
    omega
  have hbody := parseJsonStringBody_enc s.toList [']']
    (s.toList.flatMap escapeJsonChar ++ '\"' :: [']']).length hlen
  rw [hassoc, parseJsonStrings_cons, hbody]
  rfl

lemma parseJsonStrings_enc :
    ∀ (l : List String) (s : String) (fuel : Nat), l.length ≤ fuel →
    parseJsonStrings (fuel + 1) (encodeArrBody (s :: l)) = some ((s :: l).map String.toList) := by
  intro l
  induction l with
  | nil =>
    intro s fuel _
    have h1 : encodeArrBody [s] = encStrChars s ++ [']'] := rfl
    rw [h1, parseJsonStrings_step_last]
    rfl
  | cons s2 rest ih =>
    intro s fuel hfuel
    match fuel, hfuel with
    | fuel + 1, hfuel =>
      have ih2 := ih s2 fuel (by simpa using hfuel)
      have h1 : encodeArrBody (s :: s2 :: rest) = encStrChars s ++ ',' :: encodeArrBody (s2 :: rest) :=
        rfl
      rw [h1, parseJsonStrings_step_more, ih2]
      rfl

lemma encodeArrBody_length_ge : ∀ (l : List String) (s : String),
    l.length + 1 ≤ (encodeArrBody (s :: l)).length := by
  intro l
  induction l with
  | nil =>
    intro s
    simp [encodeArrBody, encStrChars]
  | cons s2 rest ih =>
    intro s
    have := ih s2
    have hthis : encodeArrBody (s :: s2 :: rest) = encStrChars s ++ ',' :: encodeArrBody (s2 :: rest) :=
      rfl
    rw [hthis]
    simp only [encStrChars, List.length_append, List.length_cons, List.length_cons] at *
    omega

/-- Round-trip of string lists through the JSON storage boundary. -/
theorem parse_encode_json_array (l : List String) :
    parse_json_array (encodeJsonArray l) = l := by
  match l with
  | [] => rfl
  | s :: rest =>
    have hlen : rest.length + 1 ≤ (encodeArrBody (s :: rest)).length :=
      encodeArrBody_length_ge rest s
    have hfuel : (encodeArrBody (s :: rest)).length - 1 + 1 = (encodeArrBody (s :: rest)).length := by
      omega
    have hparse := parseJsonStrings_enc rest s ((encodeArrBody (s :: rest)).length - 1) (by omega)
    rw [hfuel] at hparse
    have htl : (encodeJsonArray (s :: rest)).toList = '[' :: encodeArrBody (s :: rest) := rfl
    simp only [parse_json_array, htl, hparse]
    have hmk : ∀ x : String, String.mk x.toList = x := fun _ => rfl
    simp [List.map_map, Function.comp_def, hmk]

/-! ### Rust `str::trim` and whitespace -/

/-- Rust `char::is_whitespace`: the Unicode White_Space property. -/
def isRustWhitespace (c : Char) : Bool :=
  [0x09, 0x0A, 0x0B, 0x0C, 0x0D, 0x20, 0x85, 0xA0, 0x1680,
   0x2000, 0x2001, 0x2002, 0x2003, 0x2004, 0x2005, 0x2006, 0x2007, 0x2008,
   0x2009, 0x200A, 0x2028, 0x2029, 0x202F, 0x205F, 0x3000].contains c.toNat

/-- Rust `str::trim`: strip leading and trailing whitespace. -/
def trimRust (s : String) : String :=
  String.mk (((s.toList.dropWhile isRustWhitespace).reverse.dropWhile isRustWhitespace).reverse)

lemma dropWhile_of_all {α} (p : α → Bool) :
    ∀ (l : List α), l.all p = true → l.dropWhile p = [] := by
  intro l h
  induction l with
  | nil => rfl
  | cons a l ih =>
    simp only [List.all_cons, Bool.and_eq_true] at h
    simp [List.dropWhile, h.1, ih h.2]

/-- A string that is empty or all-whitespace trims to the empty string. -/
lemma trimRust_isEmpty_of_blank (s : String) (h : s.toList.all isRustWhitespace = true) :
    (trimRust s).isEmpty = true := by
  have h2 : s.toList.dropWhile isRustWhitespace = [] := dropWhile_of_all _ _ h
  simp only [trimRust, h2, List.reverse_nil, List.dropWhile_nil]
  rfl

/-! ### Data model (`src/backend/src/models/*.rs`) -/

/-- T-shirt size classification (models/topic.rs). -/
inductive TShirtSize
  | XXS | XS | S | M | L | XL | XXL
deriving DecidableEq

/-- `TShirtSize::as_str`. -/
def TShirtSize.as_str : TShirtSize → String
  | .XXS => "XXS"
  | .XS => "XS"
  | .S => "S"
  | .M => "M"
  | .L => "L"
  | .XL => "XL"
  | .XXL => "XXL"

/-- `TShirtSize::from_str`. -/
def TShirtSize.from_str (s : String) : Option TShirtSize :=
  if s = "XXS" then some .XXS
  else if s = "XS" then some .XS
  else if s = "S" then some .S
  else if s = "M" then some .M
  else if s = "L" then some .L
  else if s = "XL" then some .XL
  else if s = "XXL" then some .XXL
  else none

/-- Time-based validity for a topic (models/topic.rs). -/
structure TopicValidity where
  always_valid : Bool
  valid_from : Option String
  valid_to : Option String
deriving DecidableEq

/-- `TopicValidity::default()`: always valid. -/
def TopicValidity.default : TopicValidity :=
  { always_valid := true, valid_from := none, valid_to := none }

/-- RACI responsibility matrix for a topic (models/topic.rs). -/
structure TopicRaci where
  r1_member_id : String
  r2_member_id : Option String
  r3_member_id : Option String
  c_member_ids : List String
  i_member_ids : List String
deriving DecidableEq

/-- A topic (models/topic.rs). -/
structure Topic where
  id : String
  header : String
  description : Option String
  tags : Option (List String)
  search_keywords : Option (List String)
  validity : TopicValidity
  notes : Option String
  raci : TopicRaci
  updated_at : String
  priority : Option Int
  has_file_number : Option Bool
  file_number : Option String
  has_shared_file_path : Option Bool
  shared_file_path : Option String
  size : Option TShirtSize
  version : Int
deriving DecidableEq

/-- A team member (models/member.rs). -/
structure TeamMember where
  id : String
  display_name : String
  email : Option String
  active : Bool
  tags : Option (List String)
  color : Option String
  updated_at : String
  version : Int
deriving DecidableEq

/-- A tag (models/tag.rs). -/
structure Tag where
  id : String
  name : String
  search_keywords : Option (List String)
  hinweise : Option String
  copy_paste_text : Option String
  color : Option String
  is_super_tag : Option Bool
  is_gvpl_tag : Option Bool
  created_at : String
  modified_at : String
  created_by : String
  version : Int
deriving DecidableEq

/-- `CreateMemberRequest` (models/member.rs). -/
structure CreateMemberRequest where
  display_name : String
  email : Option String
  active : Bool
  tags : Option (List String)
  color : Option String
deriving DecidableEq

/-- `UpdateMemberRequest` (models/member.rs). -/
structure UpdateMemberRequest where
  display_name : Option String
  email : Option String
  active : Option Bool
  tags : Option (List String)
  color : Option String
  expected_version : Option Int
deriving DecidableEq

/-- `CreateTagRequest` (models/tag.rs). -/
structure CreateTagRequest where
  name : String
  search_keywords : Option (List String)
  hinweise : Option String
  copy_paste_text : Option String
  color : Option String
  is_super_tag : Option Bool
  is_gvpl_tag : Option Bool
  created_by : String
deriving DecidableEq

/-- `UpdateTagRequest` (models/tag.rs). -/
structure UpdateTagRequest where
  name : Option String
  search_keywords : Option (List String)
  hinweise : Option String
  copy_paste_text : Option String
  color : Option String
  is_super_tag : Option Bool
  is_gvpl_tag : Option Bool
  expected_version : Option Int
deriving DecidableEq

/-- `CreateTopicRequest` (models/topic.rs). -/
structure CreateTopicRequest where
  header : String
  description : Option String
  tags : Option (List String)
  search_keywords : Option (List String)
  validity : Option TopicValidity
  notes : Option String
  raci : TopicRaci
  priority : Option Int
  has_file_number : Option Bool
  file_number : Option String
  has_shared_file_path : Option Bool
  shared_file_path : Option String
  size : Option TShirtSize
deriving DecidableEq

/-- `UpdateTopicRequest` (models/topic.rs). -/
structure UpdateTopicRequest where
  header : Option String
  description : Option String
  tags : Option (List String)
  search_keywords : Option (List String)
  validity : Option TopicValidity
  notes : Option String
  raci : Option TopicRaci
  priority : Option Int
  has_file_number : Option Bool
  file_number : Option String
  has_shared_file_path : Option Bool
  shared_file_path : Option String
  size : Option TShirtSize
  expected_version : Option Int
deriving DecidableEq

/-- `AppError` (errors/mod.rs). -/
inductive AppError
  | unauthorized (msg : String)
  | notFound (msg : String)
  | validation (msg : String)
  | conflict (message : String) (current_version : Int)
  | database (msg : String)
  | search (msg : String)
  | internal (msg : String)
  | badRequest (msg : String)
deriving DecidableEq

/-- The `details` object attached by `ErrorResponse::new` (errors/mod.rs line
142): only `Conflict` carries `{ "currentVersion": current_version }`. -/
def errorDetailsCurrentVersion : AppError → Option Int
  | .conflict _ v => some v
  | _ => none

/-! ### Row records: the SQLite tables' columns, holding values exactly as
bound by the SQL statements in repository.rs -/

/-- One row of the `members` table. -/
structure MemberRow where
  id : String
  display_name : String
  email : Option String
  active : Int
  tags : Option String
  color : Option String
  updated_at : String
  version : Int
deriving DecidableEq

/-- One row of the `tags` table. -/
structure TagRow where
  id : String
  name : String
  search_keywords : Option String
  hinweise : Option String
  copy_paste_text : Option String
  color : Option String
  is_super_tag : Option Int
  is_gvpl_tag : Option Int
  created_at : String
  modified_at : String
  created_by : String
  version : Int
deriving DecidableEq

/-- One row of the `topics` table. -/
structure TopicRow where
  id : String
  header : String
  description : Option String
  tags : Option String
  search_keywords : Option String
  validity_always_valid : Int
  validity_valid_from : Option String
  validity_valid_to : Option String
  notes : Option String
  raci_r1_member_id : String
  raci_r2_member_id : Option String
  raci_r3_member_id : Option String
  raci_c_member_ids : Option String
  raci_i_member_ids : Option String
  updated_at : String
  priority : Option Int
  has_file_number : Option Int
  file_number : Option String
  has_shared_file_path : Option Int
  shared_file_path : Option String
  size : Option String
  version : Int
deriving DecidableEq

/-- Rust `b as i32`. -/
def boolToInt (b : Bool) : Int := if b then 1 else 0

/-- `member_from_row` (repository.rs line 812). -/
def member_from_row (row : MemberRow) : TeamMember :=
  { id := row.id
    display_name := row.display_name
    email := row.email
    active := decide (row.active ≠ 0)
    tags := row.tags.map (fun s => parse_json_array s)
    color := row.color
    updated_at := row.updated_at
    version := row.version }

/-- `tag_from_row` (repository.rs line 827). -/
def tag_from_row (row : TagRow) : Tag :=
  { id := row.id
    name := row.name
    search_keywords := row.search_keywords.map (fun s => parse_json_array s)
    hinweise := row.hinweise
    copy_paste_text := row.copy_paste_text
    color := row.color
    is_super_tag := row.is_super_tag.map (fun v => decide (v ≠ 0))
    is_gvpl_tag := row.is_gvpl_tag.map (fun v => decide (v ≠ 0))
    created_at := row.created_at
    modified_at := row.modified_at
    created_by := row.created_by
    version := row.version }

/-- `topic_from_row` (repository.rs line 847). -/
def topic_from_row (row : TopicRow) : Topic :=
  { id := row.id
    header := row.header
    description := row.description
    tags := row.tags.map (fun s => parse_json_array s)
    search_keywords := row.search_keywords.map (fun s => parse_json_array s)
    validity :=
      { always_valid := decide (row.validity_always_valid ≠ 0)
        valid_from := row.validity_valid_from
        valid_to := row.validity_valid_to }
    notes := row.notes
    raci :=
      { r1_member_id := row.raci_r1_member_id
        r2_member_id := row.raci_r2_member_id
        r3_member_id := row.raci_r3_member_id
        c_member_ids := (row.raci_c_member_ids.map (fun s => parse_json_array s)).getD []
        i_member_ids := (row.raci_i_member_ids.map (fun s => parse_json_array s)).getD [] }
    updated_at := row.updated_at
    priority := row.priority
    has_file_number := row.has_file_number.map (fun v => decide (v ≠ 0))
    file_number := row.file_number
    has_shared_file_path := row.has_shared_file_path.map (fun v => decide (v ≠ 0))
    shared_file_path := row.shared_file_path
    size := row.size.bind (fun s => TShirtSize.from_str s)
    version := row.version }

/-- The `members` row holding exactly the values the INSERT / UPDATE
statements bind for a member record `m`. -/
def memberRowOf (m : TeamMember) : MemberRow :=
  { id := m.id
    display_name := m.display_name
    email := m.email
    active := boolToInt m.active
    tags := m.tags.map (fun t => encodeJsonArray t)
    color := m.color
    updated_at := m.updated_at
    version := m.version }

/-- The `tags` row holding exactly the values the INSERT statement binds for
a tag record `t`. -/
def tagRowOf (t : Tag) : TagRow :=
  { id := t.id
    name := t.name
    search_keywords := t.search_keywords.map (fun k => encodeJsonArray k)
    hinweise := t.hinweise
    copy_paste_text := t.copy_paste_text
    color := t.color
    is_super_tag := t.is_super_tag.map boolToInt
    is_gvpl_tag := t.is_gvpl_tag.map boolToInt
    created_at := t.created_at
    modified_at := t.modified_at
    created_by := t.created_by
    version := t.version }

/-- The `topics` row holding exactly the values the INSERT / UPDATE
statements bind for a topic record `t`. -/
def topicRowOf (t : Topic) : TopicRow :=
  { id := t.id
    header := t.header
    description := t.description
    tags := t.tags.map (fun l => encodeJsonArray l)
    search_keywords := t.search_keywords.map (fun l => encodeJsonArray l)
    validity_always_valid := boolToInt t.validity.always_valid
    validity_valid_from := t.validity.valid_from
    validity_valid_to := t.validity.valid_to
    notes := t.notes
    raci_r1_member_id := t.raci.r1_member_id
    raci_r2_member_id := t.raci.r2_member_id
    raci_r3_member_id := t.raci.r3_member_id
    raci_c_member_ids := some (encodeJsonArray t.raci.c_member_ids)
    raci_i_member_ids := some (encodeJsonArray t.raci.i_member_ids)
    updated_at := t.updated_at
    priority := t.priority
    has_file_number := t.has_file_number.map boolToInt
    file_number := t.file_number
    has_shared_file_path := t.has_shared_file_path.map boolToInt
    shared_file_path := t.shared_file_path
    size := t.size.map (fun s => s.as_str)
    version := t.version }

/-- The row rewrite a member UPDATE applies to a matched row: every column
of the SET list comes from the merged record, the `id` column (not in the SET
list) keeps the row's own value. -/
def memberRowUpdate (m : TeamMember) (r : MemberRow) : MemberRow :=
  { memberRowOf m with id := r.id }

/-- The row rewrite a tag UPDATE applies to a matched row: `id`, `created_at`
and `created_by` are not in the SET list and keep the row's own values. -/
def tagRowUpdate (g : Tag) (r : TagRow) : TagRow :=
  { tagRowOf g with id := r.id, created_at := r.created_at, created_by := r.created_by }

/-- The row rewrite a topic UPDATE applies to a matched row. -/
def topicRowUpdate (t : Topic) (r : TopicRow) : TopicRow :=
  { topicRowOf t with id := r.id }

lemma from_str_as_str (z : TShirtSize) : TShirtSize.from_str z.as_str = some z := by
  cases z <;> rfl

lemma decide_boolToInt_ne (b : Bool) : decide (boolToInt b ≠ 0) = b := by
  cases b <;> rfl

lemma decide_boolToInt_eq (b : Bool) : decide (boolToInt b = 0) = !b := by
  cases b <;> rfl

/-- Reading back the row written for a member yields the member unchanged. -/
lemma member_from_row_memberRowOf (m : TeamMember) :
    member_from_row (memberRowOf m) = m := by
  cases m with
  | mk id dn em ac tg co ua v =>
    cases tg <;> cases ac <;>
      simp [member_from_row, memberRowOf, parse_encode_json_array, boolToInt]

/-- Reading back the row written for a tag yields the tag unchanged. -/
lemma tag_from_row_tagRowOf (t : Tag) :
    tag_from_row (tagRowOf t) = t := by
  cases t with
  | mk id nm kw hw cp co st gv ca ma cb v =>
    cases kw <;> cases st <;> cases gv <;>
      simp [tag_from_row, tagRowOf, parse_encode_json_array,
        decide_boolToInt_ne, decide_boolToInt_eq]

/-- Reading back the row written for a topic yields the topic unchanged. -/
lemma topic_from_row_topicRowOf (t : Topic) :
    topic_from_row (topicRowOf t) = t := by
  cases t with
  | mk id hd de tg kw va no ra ua pr hf fn hs sp sz v =>
    cases va with
    | mk av vf vt =>
      cases ra with
      | mk r1 r2 r3 ci ii =>
        cases tg <;> cases kw <;> cases hf <;> cases hs <;> cases sz <;>
          simp [topic_from_row, topicRowOf, parse_encode_json_array,
            decide_boolToInt_ne, decide_boolToInt_eq, from_str_as_str,
            Bool.apply_cond (fun i : Int => decide (i ≠ 0))]

/-! ### The versioned record store (`src/backend/src/db/repository.rs`)

`Store` is the SQLite database: the `meta` singleton plus the three tables.
Each operation takes the store and returns `(Result, store after the call)`. -/

/-- The database state: the singleton `meta` row plus the three tables. -/
structure Store where
  schema_version : Int
  revision_id : Int
  generated_at : String
  members : List MemberRow
  tags : List TagRow
  topics : List TopicRow
deriving DecidableEq

/-- `increment_revision` (repository.rs line 46): bump the singleton counter
and refresh `generated_at`. -/
def increment_revision (s : Store) (now : String) : Store :=
  { s with revision_id := s.revision_id + 1, generated_at := now }

/-- A conditional SQL `UPDATE … WHERE <pred>`: every matching row is rewritten
by `f`, and the number of affected rows is reported. -/
def condUpdateRows {α} (rows : List α) (pred : α → Bool) (f : α → α) : List α × Nat :=
  (rows.map (fun r => if pred r then f r else r), rows.countP pred)

/-- A SQL `DELETE FROM … WHERE id = ?`: drop matching rows, report the count. -/
def deleteRows {α} (rows : List α) (pred : α → Bool) : List α × Nat :=
  (rows.filter (fun r => !(pred r)), rows.countP pred)

/-! #### Member operations -/

/-- `get_member` (repository.rs line 90). -/
def get_member (s : Store) (id : String) : Option TeamMember :=
  (s.members.find? (fun r => r.id == id)).map member_from_row

/-- `create_member` (repository.rs line 102). `id` and `now` stand for the
fresh UUID and the current timestamp; the INSERT fails on a duplicate primary
key. -/
def create_member (s : Store) (id now : String) (request : CreateMemberRequest) :
    Except AppError TeamMember × Store :=
  if s.members.any (fun r => r.id == id) then
    (.error (.database "UNIQUE constraint failed: members.id"), s)
  else
    let m : TeamMember :=
      { id := id
        display_name := request.display_name
        email := request.email
        active := request.active
        tags := request.tags
        color := request.color
        updated_at := now
        version := 1 }
    (.ok m, increment_revision { s with members := s.members ++ [memberRowOf m] } now)

/-- The merged member record built by `update_member` (repository.rs
lines 164-177 and 206-215): supplied fields replace, unset fields keep the
existing value. -/
def mergeMember (existing : TeamMember) (request : UpdateMemberRequest)
    (id now : String) : TeamMember :=
  { id := id
    display_name := request.display_name.getD existing.display_name
    email := request.email.or existing.email
    active := request.active.getD existing.active
    tags := request.tags.or existing.tags
    color := request.color.or existing.color
    updated_at := now
    version := existing.version + 1 }

/-- `update_member` (repository.rs line 141): optimistic concurrency via the
`expected_version` check and the conditional `WHERE id = ? AND version = ?`
write. -/
def update_member (s : Store) (id : String) (request : UpdateMemberRequest)
    (now : String) : Except AppError TeamMember × Store :=
  match get_member s id with
  | none => (.error (.notFound ("Member " ++ id ++ " not found")), s)
  | some existing =>
    match request.expected_version with
    | some expected =>
      if existing.version = expected then
        updateMemberWrite s id request existing now
      else
        (.error (.conflict
          ("Version mismatch: expected " ++ toString expected ++ ", current "
            ++ toString existing.version) existing.version), s)
    | none => updateMemberWrite s id request existing now
where
  /-- The conditional UPDATE + revision bump of a member write. -/
  updateMemberWrite (s : Store) (id : String) (request : UpdateMemberRequest)
      (existing : TeamMember) (now : String) : Except AppError TeamMember × Store :=
    let merged := mergeMember existing request id now
    let ru := condUpdateRows s.members
      (fun r => r.id == id && r.version == existing.version)
      (memberRowUpdate merged)
    if ru.2 = 0 then
      (.error (.conflict "Concurrent modification detected"
        (((get_member { s with members := ru.1 } id).map (fun m => m.version)).getD 0)),
        { s with members := ru.1 })
    else
      (.ok merged, increment_revision { s with members := ru.1 } now)

/-- `delete_member` (repository.rs line 219). -/
def delete_member (s : Store) (id now : String) : Except AppError Unit × Store :=
  let dr := deleteRows s.members (fun r => r.id == id)
  if dr.2 = 0 then
    (.error (.notFound ("Member " ++ id ++ " not found")), { s with members := dr.1 })
  else
    (.ok (), increment_revision { s with members := dr.1 } now)

/-! #### Tag operations -/

/-- `get_tag` (repository.rs line 247). -/
def get_tag (s : Store) (id : String) : Option Tag :=
  (s.tags.find? (fun r => r.id == id)).map tag_from_row

/-- `create_tag` (repository.rs line 259). -/
def create_tag (s : Store) (id now : String) (request : CreateTagRequest) :
    Except AppError Tag × Store :=
  if s.tags.any (fun r => r.id == id) then
    (.error (.database "UNIQUE constraint failed: tags.id"), s)
  else
    let t : Tag :=
      { id := id
        name := request.name
        search_keywords := request.search_keywords
        hinweise := request.hinweise
        copy_paste_text := request.copy_paste_text
        color := request.color
        is_super_tag := request.is_super_tag
        is_gvpl_tag := request.is_gvpl_tag
        created_at := now
        modified_at := now
        created_by := request.created_by
        version := 1 }
    (.ok t, increment_revision { s with tags := s.tags ++ [tagRowOf t] } now)

/-- The merged tag record built by `update_tag` (repository.rs lines 322-340
and 369-382): `created_at` and `created_by` always come from the existing
record. -/
def mergeTag (existing : Tag) (request : UpdateTagRequest) (id now : String) : Tag :=
  { id := id
    name := request.name.getD existing.name
    search_keywords := request.search_keywords.or existing.search_keywords
    hinweise := request.hinweise.or existing.hinweise
    copy_paste_text := request.copy_paste_text.or existing.copy_paste_text
    color := request.color.or existing.color
    is_super_tag := request.is_super_tag.or existing.is_super_tag
    is_gvpl_tag := request.is_gvpl_tag.or existing.is_gvpl_tag
    created_at := existing.created_at
    modified_at := now
    created_by := existing.created_by
    version := existing.version + 1 }

/-- `update_tag` (repository.rs line 303). The UPDATE statement does not
touch the `created_at` / `created_by` columns. -/
def update_tag (s : Store) (id : String) (request : UpdateTagRequest)
    (now : String) : Except AppError Tag × Store :=
  match get_tag s id with
  | none => (.error (.notFound ("Tag " ++ id ++ " not found")), s)
  | some existing =>
    match request.expected_version with
    | some expected =>
      if existing.version = expected then
        updateTagWrite s id request existing now
      else
        (.error (.conflict
          ("Version mismatch: expected " ++ toString expected ++ ", current "
            ++ toString existing.version) existing.version), s)
    | none => updateTagWrite s id request existing now
where
  /-- The conditional UPDATE + revision bump of a tag write. -/
  updateTagWrite (s : Store) (id : String) (request : UpdateTagRequest)
      (existing : Tag) (now : String) : Except AppError Tag × Store :=
    let merged := mergeTag existing request id now
    let ru := condUpdateRows s.tags
      (fun r => r.id == id && r.version == existing.version)
      (tagRowUpdate merged)
    if ru.2 = 0 then
      (.error (.conflict "Concurrent modification detected"
        (((get_tag { s with tags := ru.1 } id).map (fun t => t.version)).getD 0)),
        { s with tags := ru.1 })
    else
      (.ok merged, increment_revision { s with tags := ru.1 } now)

/-- `delete_tag` (repository.rs line 386). -/
def delete_tag (s : Store) (id now : String) : Except AppError Unit × Store :=
  let dr := deleteRows s.tags (fun r => r.id == id)
  if dr.2 = 0 then
    (.error (.notFound ("Tag " ++ id ++ " not found")), { s with tags := dr.1 })
  else
    (.ok (), increment_revision { s with tags := dr.1 } now)

/-! #### Topic operations -/

/-- `get_topic` (repository.rs line 420). -/
def get_topic (s : Store) (id : String) : Option Topic :=
  (s.topics.find? (fun r => r.id == id)).map topic_from_row

/-- `create_topic` (repository.rs line 438). -/
def create_topic (s : Store) (id now : String) (request : CreateTopicRequest) :
    Except AppError Topic × Store :=
  if s.topics.any (fun r => r.id == id) then
    (.error (.database "UNIQUE constraint failed: topics.id"), s)
  else
    let t : Topic :=
      { id := id
        header := request.header
        description := request.description
        tags := request.tags
        search_keywords := request.search_keywords
        validity := request.validity.getD TopicValidity.default
        notes := request.notes
        raci := request.raci
        updated_at := now
        priority := request.priority
        has_file_number := request.has_file_number
        file_number := request.file_number
        has_shared_file_path := request.has_shared_file_path
        shared_file_path := request.shared_file_path
        size := request.size
        version := 1 }
    (.ok t, increment_revision { s with topics := s.topics ++ [topicRowOf t] } now)

/-- The merged topic record built by `update_topic` / `batch_update_topics`
(repository.rs lines 534-560 and 618-635): supplied fields replace, unset
fields keep the existing value. -/
def mergeTopic (existing : Topic) (request : UpdateTopicRequest)
    (id now : String) : Topic :=
  { id := id
    header := request.header.getD existing.header
    description := request.description.or existing.description
    tags := request.tags.or existing.tags
    search_keywords := request.search_keywords.or existing.search_keywords
    validity := request.validity.getD existing.validity
    notes := request.notes.or existing.notes
    raci := request.raci.getD existing.raci
    updated_at := now
    priority := request.priority.or existing.priority
    has_file_number := request.has_file_number.or existing.has_file_number
    file_number := request.file_number.or existing.file_number
    has_shared_file_path := request.has_shared_file_path.or existing.has_shared_file_path
    shared_file_path := request.shared_file_path.or existing.shared_file_path
    size := request.size.or existing.size
    version := existing.version + 1 }

/-- `update_topic` (repository.rs line 511). -/
def update_topic (s : Store) (id : String) (request : UpdateTopicRequest)
    (now : String) : Except AppError Topic × Store :=
  match get_topic s id with
  | none => (.error (.notFound ("Topic " ++ id ++ " not found")), s)
  | some existing =>
    match request.expected_version with
    | some expected =>
      if existing.version = expected then
        updateTopicWrite s id request existing now
      else
        (.error (.conflict
          ("Version mismatch: expected " ++ toString expected ++ ", current "
            ++ toString existing.version) existing.version), s)
    | none => updateTopicWrite s id request existing now
where
  /-- The conditional UPDATE + revision bump of a topic write. -/
  updateTopicWrite (s : Store) (id : String) (request : UpdateTopicRequest)
      (existing : Topic) (now : String) : Except AppError Topic × Store :=
    let merged := mergeTopic existing request id now
    let ru := condUpdateRows s.topics
      (fun r => r.id == id && r.version == existing.version)
      (topicRowUpdate merged)
    if ru.2 = 0 then
      (.error (.conflict "Concurrent modification detected"
        (((get_topic { s with topics := ru.1 } id).map (fun t => t.version)).getD 0)),
        { s with topics := ru.1 })
    else
      (.ok merged, increment_revision { s with topics := ru.1 } now)

/-- `delete_topic` (repository.rs line 639). -/
def delete_topic (s : Store) (id now : String) : Except AppError Unit × Store :=
  let dr := deleteRows s.topics (fun r => r.id == id)
  if dr.2 = 0 then
    (.error (.notFound ("Topic " ++ id ++ " not found")), { s with topics := dr.1 })
  else
    (.ok (), increment_revision { s with topics := dr.1 } now)

/-- The loop body of `batch_update_topics` (repository.rs lines 663-795),
running inside one transaction over the topics table. On success it returns
the updated records in input order plus the table after all writes; any error
aborts the whole transaction. -/
def batchLoop : List TopicRow → List (String × UpdateTopicRequest) → String →
    Except AppError (List Topic × List TopicRow)
  | rows, [], _ => .ok ([], rows)
  | rows, (topic_id, request) :: rest, now =>
    match (rows.find? (fun r => r.id == topic_id)).map topic_from_row with
    | none => .error (.notFound ("Topic " ++ topic_id ++ " not found"))
    | some existing =>
      match request.expected_version with
      | some expected =>
        if existing.version = expected then
          let merged := mergeTopic existing request topic_id now
          let ru := condUpdateRows rows
            (fun r => r.id == topic_id && r.version == existing.version)
            (topicRowUpdate merged)
          if ru.2 = 0 then
            .error (.conflict ("Concurrent modification detected for topic " ++ topic_id)
              existing.version)
          else
            (batchLoop ru.1 rest now).map (fun p => (merged :: p.1, p.2))
        else
          .error (.conflict
            ("Version mismatch for topic " ++ topic_id ++ ": expected "
              ++ toString expected ++ ", current " ++ toString existing.version)
            existing.version)
      | none =>
        let merged := mergeTopic existing request topic_id now
        let ru := condUpdateRows rows
          (fun r => r.id == topic_id && r.version == existing.version)
          (topicRowUpdate merged)
        if ru.2 = 0 then
          .error (.conflict ("Concurrent modification detected for topic " ++ topic_id)
            existing.version)
        else
          (batchLoop ru.1 rest now).map (fun p => (merged :: p.1, p.2))

/-- `batch_update_topics` (repository.rs line 654): all updates and a single
revision bump inside one transaction; on any error the transaction rolls back
and the store is untouched. -/
def batch_update_topics (s : Store) (updates : List (String × UpdateTopicRequest))
    (now : String) : Except AppError (List Topic) × Store :=
  match batchLoop s.topics updates now with
  | .error e => (.error e, s)
  | .ok (results, rows) =>
    (.ok results,
      { s with topics := rows, revision_id := s.revision_id + 1, generated_at := now })

/-! ### Search index (`src/backend/src/search/mod.rs`) -/

/-- `SearchResult` (search/mod.rs line 26); the `f32` score is abstracted. -/
structure SearchResult where
  topic_id : String
  score : Nat
deriving DecidableEq

/-- `SearchIndex::search` (search/mod.rs line 155): blank queries return an
empty list before touching the index; otherwise the tantivy searcher —
abstracted as `engine`, `none` standing for a query-parse failure — produces
the score-ordered hits, of which `TopDocs::with_limit(limit + offset)`
retains the first `limit + offset` and `skip(offset).take(limit)` pages. -/
def SearchIndex.search (engine : String → Option (List SearchResult))
    (query_str : String) (limit offset : Nat) : Except AppError (List SearchResult) :=
  if (trimRust query_str).isEmpty then .ok []
  else
    match engine query_str with
    | none => .error (.search "Invalid search query")
    | some ranked => .ok (((ranked.take (limit + offset)).drop offset).take limit)

/-! ### API layer (`src/backend/src/api/*.rs`)

`ApiResult T` is the JSON envelope: a success carries `(data, revisionId)`,
an error carries `(AppError, revisionId)`, where `revisionId` is the value
sent in the response. Handlers that trigger the consistency synchronizer take
the indexing outcome as an extra argument `idx`; its only use in the source is
a `tracing::warn!` log on failure. -/

/-- The JSON response envelope of api/mod.rs. -/
abbrev ApiResult (T : Type) := Except (AppError × Int) (T × Int)

/-- `create_member` handler (api/members.rs line 41). -/
def api_create_member (s : Store) (id now : String) (request : CreateMemberRequest) :
    ApiResult TeamMember × Store :=
  let revision_id := s.revision_id
  if (trimRust request.display_name).isEmpty then
    (.error (.validation "Display name is required", revision_id), s)
  else
    match create_member s id now request with
    | (.ok member, s1) => (.ok (member, s1.revision_id), s1)
    | (.error e, s1) => (.error (e, revision_id), s1)

/-- `create_tag` handler (api/tags.rs line 24); `idx` is the outcome of
`rebuild_search_index_async`, which swallows every indexing error. -/
def api_create_tag (s : Store) (id now : String) (request : CreateTagRequest)
    (idx : Except AppError Unit) : ApiResult Tag × Store :=
  let revision_id := s.revision_id
  if (trimRust request.name).isEmpty then
    (.error (.validation "Tag name is required", revision_id), s)
  else if (trimRust request.created_by).isEmpty then
    (.error (.validation "Created by (member ID) is required", revision_id), s)
  else
    match create_tag s id now request with
    | (.ok tag, s1) =>
      match idx with
      | .ok _ => (.ok (tag, s1.revision_id), s1)
      | .error _ => (.ok (tag, s1.revision_id), s1)
    | (.error e, s1) => (.error (e, revision_id), s1)

/-- `update_tag` handler (api/tags.rs line 57). -/
def api_update_tag (s : Store) (id : String) (request : UpdateTagRequest)
    (now : String) (idx : Except AppError Unit) : ApiResult Tag × Store :=
  let revision_id := s.revision_id
  match update_tag s id request now with
  | (.ok tag, s1) =>
    match idx with
    | .ok _ => (.ok (tag, s1.revision_id), s1)
    | .error _ => (.ok (tag, s1.revision_id), s1)
  | (.error e, s1) => (.error (e, revision_id), s1)

/-- `delete_tag` handler (api/tags.rs line 77). -/
def api_delete_tag (s : Store) (id now : String) (idx : Except AppError Unit) :
    ApiResult Unit × Store :=
  let revision_id := s.revision_id
  match delete_tag s id now with
  | (.ok _, s1) =>
    match idx with
    | .ok _ => (.ok ((), s1.revision_id), s1)
    | .error _ => (.ok ((), s1.revision_id), s1)
  | (.error e, s1) => (.error (e, revision_id), s1)

/-- `create_topic` handler (api/topics.rs line 38); `idx` is the outcome of
`SearchIndex::index_topic`, only ever logged. -/
def api_create_topic (s : Store) (id now : String) (request : CreateTopicRequest)
    (idx : Except AppError Unit) : ApiResult Topic × Store :=
  let revision_id := s.revision_id
  if (trimRust request.header).isEmpty then
    (.error (.validation "Header is required", revision_id), s)
  else if (trimRust request.raci.r1_member_id).isEmpty then
    (.error (.validation "Primary responsible (r1MemberId) is required", revision_id), s)
  else
    match create_topic s id now request with
    | (.ok topic, s1) =>
      match idx with
      | .ok _ => (.ok (topic, s1.revision_id), s1)
      | .error _ => (.ok (topic, s1.revision_id), s1)
    | (.error e, s1) => (.error (e, revision_id), s1)

/-- `update_topic` handler (api/topics.rs line 74). -/
def api_update_topic (s : Store) (id : String) (request : UpdateTopicRequest)
    (now : String) (idx : Except AppError Unit) : ApiResult Topic × Store :=
  let revision_id := s.revision_id
  match update_topic s id request now with
  | (.ok topic, s1) =>
    match idx with
    | .ok _ => (.ok (topic, s1.revision_id), s1)
    | .error _ => (.ok (topic, s1.revision_id), s1)
  | (.error e, s1) => (.error (e, revision_id), s1)

/-- `delete_topic` handler (api/topics.rs line 97); `idx` is the outcome of
`SearchIndex::remove_topic`. -/
def api_delete_topic (s : Store) (id now : String) (idx : Except AppError Unit) :
    ApiResult Unit × Store :=
  let revision_id := s.revision_id
  match delete_topic s id now with
  | (.ok _, s1) =>
    match idx with
    | .ok _ => (.ok ((), s1.revision_id), s1)
    | .error _ => (.ok ((), s1.revision_id), s1)
  | (.error e, s1) => (.error (e, revision_id), s1)

/-- `batch_update_topics` handler (api/topics.rs line 115). -/
def api_batch_update_topics (s : Store) (updates : List (String × UpdateTopicRequest))
    (now : String) (idx : Except AppError Unit) : ApiResult (List Topic) × Store :=
  let revision_id := s.revision_id
  if updates.isEmpty then
    (.error (.validation "No updates provided", revision_id), s)
  else
    match batch_update_topics s updates now with
    | (.ok topics, s1) =>
      match idx with
      | .ok _ => (.ok (topics, s1.revision_id), s1)
      | .error _ => (.ok (topics, s1.revision_id), s1)
    | (.error e, s1) => (.error (e, revision_id), s1)

/-- `SearchResponse` (api/search.rs line 30): result items are the stored
topic together with the hit's score. -/
structure SearchResponse where
  results : List (Topic × Nat)
  total : Nat
  limit : Nat
  offset : Nat
deriving DecidableEq

/-- `MAX_SEARCH_LIMIT` (api/search.rs line 46). -/
def MAX_SEARCH_LIMIT : Nat := 100

/-- `search_topics` handler (api/search.rs line 49): clamps the requested
limit to `MAX_SEARCH_LIMIT`, runs the index search, then resolves each hit to
its stored topic (hits whose topic is gone are dropped). -/
def search_topics (s : Store) (engine : String → Option (List SearchResult))
    (q : String) (limitReq offsetReq : Nat) : ApiResult SearchResponse × Store :=
  let revision_id := s.revision_id
  let limit := min limitReq MAX_SEARCH_LIMIT
  match SearchIndex.search engine q limit offsetReq with
  | .error e => (.error (e, revision_id), s)
  | .ok search_results =>
    let results := search_results.filterMap
      (fun sr => (get_topic s sr.topic_id).map (fun t => (t, sr.score)))
    (.ok ({ results := results
            total := results.length
            limit := limit
            offset := offsetReq }, revision_id), s)

/-! ### Toolkit lemmas about the row-level SQL model -/

lemma find?_map_of_pred {α} (g : α → α) (q : α → Bool) (h : ∀ r, q (g r) = q r) :
    ∀ rows : List α, (rows.map g).find? q = (rows.find? q).map g := by
  intro rows
  induction rows with
  | nil => rfl
  | cons r rows ih =>
    by_cases hr : q r = true
    · rw [List.map_cons, List.find?_cons_of_pos _ ((h r).trans hr),
        List.find?_cons_of_pos _ hr]
      rfl
    · rw [List.map_cons, List.find?_cons_of_neg _ (by rw [h r]; exact hr),
        List.find?_cons_of_neg _ hr, ih]

/-- A conditional update whose row function keeps the predicate `q` invariant
commutes with `find?`. -/
lemma find?_condUpdate {α} (rows : List α) (pred q : α → Bool) (f : α → α)
    (hq : ∀ r, q (f r) = q r) :
    (condUpdateRows rows pred f).1.find? q
      = (rows.find? q).map (fun r => if pred r then f r else r) := by
  apply find?_map_of_pred
  intro r
  by_cases hp : pred r = true <;> simp [hp, hq]

lemma condUpdate_count_pos {α} (rows : List α) (pred : α → Bool) (f : α → α)
    (r : α) (hmem : r ∈ rows) (hpred : pred r = true) :
    (condUpdateRows rows pred f).2 ≠ 0 := by
  have : 0 < rows.countP pred := List.countP_pos_iff.mpr ⟨r, hmem, hpred⟩
  simp only [condUpdateRows]
  omega

lemma deleteRows_count_zero {α} (rows : List α) (pred : α → Bool)
    (h : rows.countP pred = 0) : (deleteRows rows pred).1 = rows := by
  simp only [deleteRows]
  apply List.filter_eq_self.mpr
  intro a ha
  have := List.countP_eq_zero.mp h a ha
  simp [this]

lemma deleteRows_find?_none {α} (rows : List α) (pred : α → Bool) :
    (deleteRows rows pred).1.find? pred = none := by
  apply List.find?_eq_none.mpr
  intro x hx
  have := (List.mem_filter.mp hx).2
  simp at this
  simp [this]

/-! #### Inversion of the member operations -/

lemma get_member_row (s : Store) (id : String) (m : TeamMember)
    (h : get_member s id = some m) :
    ∃ row, s.members.find? (fun r => r.id == id) = some row ∧ member_from_row row = m
      ∧ row.id = id ∧ row.version = m.version := by
  unfold get_member at h
  cases hf : s.members.find? (fun r => r.id == id) with
  | none => rw [hf] at h; simp at h
  | some row =>
    rw [hf] at h
    simp at h
    have hb : (row.id == id) = true := by simpa using List.find?_some hf
    refine ⟨row, rfl, h, eq_of_beq hb, ?_⟩
    rw [← h]
    rfl

lemma update_member_write_ok (s : Store) (id : String) (request : UpdateMemberRequest)
    (m : TeamMember) (now : String)
    (hm : get_member s id = some m) :
    update_member.updateMemberWrite s id request m now
      = (.ok (mergeMember m request id now),
         increment_revision
           { s with members := (condUpdateRows s.members
               (fun r => r.id == id && r.version == m.version)
               (memberRowUpdate (mergeMember m request id now))).1 }
           now) := by
  obtain ⟨row, hfind, hfrom, hid, hver⟩ := get_member_row s id m hm
  have hpred : (fun r : MemberRow => r.id == id && r.version == m.version) row = true := by
    simp [hid, hver]
  have hcount := condUpdate_count_pos s.members
    (fun r : MemberRow => r.id == id && r.version == m.version)
    (memberRowUpdate (mergeMember m request id now))
    row (List.mem_of_find?_eq_some hfind) hpred
  unfold update_member.updateMemberWrite
  simp [hcount]

lemma get_member_after_write (s : Store) (id : String) (request : UpdateMemberRequest)
    (m : TeamMember) (now : String)
    (hm : get_member s id = some m) :
    get_member
      { s with members := (condUpdateRows s.members
          (fun r => r.id == id && r.version == m.version)
          (memberRowUpdate (mergeMember m request id now))).1 }
      id = some (mergeMember m request id now) := by
  obtain ⟨row, hfind, hfrom, hid, hver⟩ := get_member_row s id m hm
  have hq : ∀ r : MemberRow,
      ((fun r : MemberRow => r.id == id)
        (memberRowUpdate (mergeMember m request id now) r)) = (r.id == id) := by
    intro r; rfl
  unfold get_member
  rw [find?_condUpdate _ _ _ _ hq, hfind, Option.map_some', Option.map_some']
  have hpred : (fun r : MemberRow => r.id == id && r.version == m.version) row = true := by
    simp [hid, hver]
  rw [if_pos hpred]
  subst hid
  have heta : memberRowUpdate (mergeMember m request row.id now) row
      = memberRowOf (mergeMember m request row.id now) := rfl
  rw [heta, member_from_row_memberRowOf]

/-! #### Inversion of the tag operations -/

lemma get_tag_row (s : Store) (id : String) (g : Tag)
    (h : get_tag s id = some g) :
    ∃ row, s.tags.find? (fun r => r.id == id) = some row ∧ tag_from_row row = g
      ∧ row.id = id ∧ row.version = g.version
      ∧ row.created_at = g.created_at ∧ row.created_by = g.created_by := by
  unfold get_tag at h
  cases hf : s.tags.find? (fun r => r.id == id) with
  | none => rw [hf] at h; simp at h
  | some row =>
    rw [hf] at h
    simp at h
    have hb : (row.id == id) = true := by simpa using List.find?_some hf
    refine ⟨row, rfl, h, eq_of_beq hb, ?_, ?_, ?_⟩ <;> (rw [← h]; rfl)

lemma update_tag_write_ok (s : Store) (id : String) (request : UpdateTagRequest)
    (g : Tag) (now : String)
    (hg : get_tag s id = some g) :
    update_tag.updateTagWrite s id request g now
      = (.ok (mergeTag g request id now),
         increment_revision
           { s with tags := (condUpdateRows s.tags
               (fun r => r.id == id && r.version == g.version)
               (tagRowUpdate (mergeTag g request id now))).1 }
           now) := by
  obtain ⟨row, hfind, hfrom, hid, hver, hca, hcb⟩ := get_tag_row s id g hg
  have hpred : (fun r : TagRow => r.id == id && r.version == g.version) row = true := by
    simp [hid, hver]
  have hcount := condUpdate_count_pos s.tags
    (fun r : TagRow => r.id == id && r.version == g.version)
    (tagRowUpdate (mergeTag g request id now))
    row (List.mem_of_find?_eq_some hfind) hpred
  unfold update_tag.updateTagWrite
  simp [hcount]

lemma get_tag_after_write (s : Store) (id : String) (request : UpdateTagRequest)
    (g : Tag) (now : String)
    (hg : get_tag s id = some g) :
    get_tag
      { s with tags := (condUpdateRows s.tags
          (fun r => r.id == id && r.version == g.version)
          (tagRowUpdate (mergeTag g request id now))).1 }
      id = some (mergeTag g request id now) := by
  obtain ⟨row, hfind, hfrom, hid, hver, hca, hcb⟩ := get_tag_row s id g hg
  have hq : ∀ r : TagRow,
      ((fun r : TagRow => r.id == id)
        (tagRowUpdate (mergeTag g request id now) r)) =
        (r.id == id) := by
    intro r; rfl
  unfold get_tag
  rw [find?_condUpdate _ _ _ _ hq, hfind, Option.map_some', Option.map_some']
  have hpred : (fun r : TagRow => r.id == id && r.version == g.version) row = true := by
    simp [hid, hver]
  rw [if_pos hpred]
  subst hid
  have hunf : tagRowUpdate (mergeTag g request row.id now) row
      = { tagRowOf (mergeTag g request row.id now) with
            id := row.id, created_at := row.created_at, created_by := row.created_by } := rfl
  rw [hunf, hca, hcb]
  have heta : ({ tagRowOf (mergeTag g request row.id now) with
                   id := row.id, created_at := g.created_at,
                   created_by := g.created_by } : TagRow)
      = tagRowOf (mergeTag g request row.id now) := rfl
  rw [heta, tag_from_row_tagRowOf]

/-! #### Inversion of the topic operations -/

lemma get_topic_row (s : Store) (id : String) (t : Topic)
    (h : get_topic s id = some t) :
    ∃ row, s.topics.find? (fun r => r.id == id) = some row ∧ topic_from_row row = t
      ∧ row.id = id ∧ row.version = t.version := by
  unfold get_topic at h
  cases hf : s.topics.find? (fun r => r.id == id) with
  | none => rw [hf] at h; simp at h
  | some row =>
    rw [hf] at h
    simp at h
    have hb : (row.id == id) = true := by simpa using List.find?_some hf
    refine ⟨row, rfl, h, eq_of_beq hb, ?_⟩
    rw [← h]
    rfl

lemma update_topic_write_ok (s : Store) (id : String) (request : UpdateTopicRequest)
    (t : Topic) (now : String)
    (ht : get_topic s id = some t) :
    update_topic.updateTopicWrite s id request t now
      = (.ok (mergeTopic t request id now),
         increment_revision
           { s with topics := (condUpdateRows s.topics
               (fun r => r.id == id && r.version == t.version)
               (topicRowUpdate (mergeTopic t request id now))).1 }
           now) := by
  obtain ⟨row, hfind, hfrom, hid, hver⟩ := get_topic_row s id t ht
  have hpred : (fun r : TopicRow => r.id == id && r.version == t.version) row = true := by
    simp [hid, hver]
  have hcount := condUpdate_count_pos s.topics
    (fun r : TopicRow => r.id == id && r.version == t.version)
    (topicRowUpdate (mergeTopic t request id now))
    row (List.mem_of_find?_eq_some hfind) hpred
  unfold update_topic.updateTopicWrite
  simp [hcount]

lemma get_topic_after_write (s : Store) (id : String) (request : UpdateTopicRequest)
    (t : Topic) (now : String)
    (ht : get_topic s id = some t) :
    get_topic
      { s with topics := (condUpdateRows s.topics
          (fun r => r.id == id && r.version == t.version)
          (topicRowUpdate (mergeTopic t request id now))).1 }
      id = some (mergeTopic t request id now) := by
  obtain ⟨row, hfind, hfrom, hid, hver⟩ := get_topic_row s id t ht
  have hq : ∀ r : TopicRow,
      ((fun r : TopicRow => r.id == id)
        (topicRowUpdate (mergeTopic t request id now) r)) = (r.id == id) := by
    intro r; rfl
  unfold get_topic
  rw [find?_condUpdate _ _ _ _ hq, hfind, Option.map_some', Option.map_some']
  have hpred : (fun r : TopicRow => r.id == id && r.version == t.version) row = true := by
    simp [hid, hver]
  rw [if_pos hpred]
  subst hid
  have heta : topicRowUpdate (mergeTopic t request row.id now) row
      = topicRowOf (mergeTopic t request row.id now) := rfl
  rw [heta, topic_from_row_topicRowOf]

/-! #### Top-level characterizations of the repository operations -/

lemma update_member_ok (s : Store) (id : String) (request : UpdateMemberRequest)
    (now : String) (m : TeamMember)
    (hm : get_member s id = some m)
    (hv : request.expected_version = none ∨ request.expected_version = some m.version) :
    update_member s id request now
      = (.ok (mergeMember m request id now),
         increment_revision
           { s with members := (condUpdateRows s.members
               (fun r => r.id == id && r.version == m.version)
               (memberRowUpdate (mergeMember m request id now))).1 }
           now) := by
  unfold update_member
  rw [hm]
  rcases hv with hv | hv <;> rw [hv] <;>
    simp [update_member_write_ok s id request m now hm]

lemma update_member_conflict (s : Store) (id : String) (request : UpdateMemberRequest)
    (now : String) (m : TeamMember) (v : Int)
    (hm : get_member s id = some m)
    (hv : request.expected_version = some v) (hne : v ≠ m.version) :
    update_member s id request now
      = (.error (.conflict
          ("Version mismatch: expected " ++ toString v ++ ", current "
            ++ toString m.version) m.version), s) := by
  unfold update_member
  rw [hm, hv]
  simp only [if_neg (show _ from fun h2 => hne (Eq.symm h2))]

lemma update_tag_ok (s : Store) (id : String) (request : UpdateTagRequest)
    (now : String) (g : Tag)
    (hg : get_tag s id = some g)
    (hv : request.expected_version = none ∨ request.expected_version = some g.version) :
    update_tag s id request now
      = (.ok (mergeTag g request id now),
         increment_revision
           { s with tags := (condUpdateRows s.tags
               (fun r => r.id == id && r.version == g.version)
               (tagRowUpdate (mergeTag g request id now))).1 }
           now) := by
  unfold update_tag
  rw [hg]
  rcases hv with hv | hv <;> rw [hv] <;>
    simp [update_tag_write_ok s id request g now hg]

lemma update_tag_conflict (s : Store) (id : String) (request : UpdateTagRequest)
    (now : String) (g : Tag) (v : Int)
    (hg : get_tag s id = some g)
    (hv : request.expected_version = some v) (hne : v ≠ g.version) :
    update_tag s id request now
      = (.error (.conflict
          ("Version mismatch: expected " ++ toString v ++ ", current "
            ++ toString g.version) g.version), s) := by
  unfold update_tag
  rw [hg, hv]
  simp only [if_neg (show _ from fun h2 => hne (Eq.symm h2))]

lemma update_topic_ok (s : Store) (id : String) (request : UpdateTopicRequest)
    (now : String) (t : Topic)
    (ht : get_topic s id = some t)
    (hv : request.expected_version = none ∨ request.expected_version = some t.version) :
    update_topic s id request now
      = (.ok (mergeTopic t request id now),
         increment_revision
           { s with topics := (condUpdateRows s.topics
               (fun r => r.id == id && r.version == t.version)
               (topicRowUpdate (mergeTopic t request id now))).1 }
           now) := by
  unfold update_topic
  rw [ht]
  rcases hv with hv | hv <;> rw [hv] <;>
    simp [update_topic_write_ok s id request t now ht]

lemma update_topic_conflict (s : Store) (id : String) (request : UpdateTopicRequest)
    (now : String) (t : Topic) (v : Int)
    (ht : get_topic s id = some t)
    (hv : request.expected_version = some v) (hne : v ≠ t.version) :
    update_topic s id request now
      = (.error (.conflict
          ("Version mismatch: expected " ++ toString v ++ ", current "
            ++ toString t.version) t.version), s) := by
  unfold update_topic
  rw [ht, hv]
  simp only [if_neg (show _ from fun h2 => hne (Eq.symm h2))]

lemma get_member_none_countP (s : Store) (id : String)
    (h : get_member s id = none) :
    s.members.countP (fun r => r.id == id) = 0 := by
  unfold get_member at h
  rw [Option.map_eq_none'] at h
  exact List.countP_eq_zero.mpr (List.find?_eq_none.mp h)

lemma get_tag_none_countP (s : Store) (id : String)
    (h : get_tag s id = none) :
    s.tags.countP (fun r => r.id == id) = 0 := by
  unfold get_tag at h
  rw [Option.map_eq_none'] at h
  exact List.countP_eq_zero.mpr (List.find?_eq_none.mp h)

lemma get_topic_none_countP (s : Store) (id : String)
    (h : get_topic s id = none) :
    s.topics.countP (fun r => r.id == id) = 0 := by
  unfold get_topic at h
  rw [Option.map_eq_none'] at h
  exact List.countP_eq_zero.mpr (List.find?_eq_none.mp h)

lemma delete_member_absent (s : Store) (id now : String)
    (h : get_member s id = none) :
    delete_member s id now = (.error (.notFound ("Member " ++ id ++ " not found")), s) := by
  have hc := get_member_none_countP s id h
  have hrows := deleteRows_count_zero s.members (fun r => r.id == id) hc
  unfold delete_member
  have h2 : (deleteRows s.members (fun r => r.id == id)).2 = 0 := hc
  rw [if_pos h2, hrows]

lemma delete_tag_absent (s : Store) (id now : String)
    (h : get_tag s id = none) :
    delete_tag s id now = (.error (.notFound ("Tag " ++ id ++ " not found")), s) := by
  have hc := get_tag_none_countP s id h
  have hrows := deleteRows_count_zero s.tags (fun r => r.id == id) hc
  unfold delete_tag
  have h2 : (deleteRows s.tags (fun r => r.id == id)).2 = 0 := hc
  rw [if_pos h2, hrows]

lemma delete_topic_absent (s : Store) (id now : String)
    (h : get_topic s id = none) :
    delete_topic s id now = (.error (.notFound ("Topic " ++ id ++ " not found")), s) := by
  have hc := get_topic_none_countP s id h
  have hrows := deleteRows_count_zero s.topics (fun r => r.id == id) hc
  unfold delete_topic
  have h2 : (deleteRows s.topics (fun r => r.id == id)).2 = 0 := hc
  rw [if_pos h2, hrows]

lemma delete_member_present (s : Store) (id now : String) (m : TeamMember)
    (h : get_member s id = some m) :
    delete_member s id now
      = (.ok (), increment_revision
          { s with members := (deleteRows s.members (fun r => r.id == id)).1 } now)
    ∧ get_member
        (increment_revision
          { s with members := (deleteRows s.members (fun r => r.id == id)).1 } now)
        id = none := by
  obtain ⟨row, hfind, _, hid, _⟩ := get_member_row s id m h
  have hpred : (fun r : MemberRow => r.id == id) row = true := by simp [hid]
  have hpos : 0 < s.members.countP (fun r => r.id == id) :=
    List.countP_pos_iff.mpr ⟨row, List.mem_of_find?_eq_some hfind, hpred⟩
  have h2 : ¬((deleteRows s.members (fun r => r.id == id)).2 = 0) := by
    simp only [deleteRows]
    omega
  constructor
  · unfold delete_member
    rw [if_neg h2]
  · unfold get_member increment_revision
    rw [deleteRows_find?_none]
    rfl

lemma delete_tag_present (s : Store) (id now : String) (g : Tag)
    (h : get_tag s id = some g) :
    delete_tag s id now
      = (.ok (), increment_revision
          { s with tags := (deleteRows s.tags (fun r => r.id == id)).1 } now)
    ∧ get_tag
        (increment_revision
          { s with tags := (deleteRows s.tags (fun r => r.id == id)).1 } now)
        id = none := by
  obtain ⟨row, hfind, _, hid, _, _, _⟩ := get_tag_row s id g h
  have hpred : (fun r : TagRow => r.id == id) row = true := by simp [hid]
  have hpos : 0 < s.tags.countP (fun r => r.id == id) :=
    List.countP_pos_iff.mpr ⟨row, List.mem_of_find?_eq_some hfind, hpred⟩
  have h2 : ¬((deleteRows s.tags (fun r => r.id == id)).2 = 0) := by
    simp only [deleteRows]
    omega
  constructor
  · unfold delete_tag
    rw [if_neg h2]
  · unfold get_tag increment_revision
    rw [deleteRows_find?_none]
    rfl

lemma delete_topic_present (s : Store) (id now : String) (t : Topic)
    (h : get_topic s id = some t) :
    delete_topic s id now
      = (.ok (), increment_revision
          { s with topics := (deleteRows s.topics (fun r => r.id == id)).1 } now)
    ∧ get_topic
        (increment_revision
          { s with topics := (deleteRows s.topics (fun r => r.id == id)).1 } now)
        id = none := by
  obtain ⟨row, hfind, _, hid, _⟩ := get_topic_row s id t h
  have hpred : (fun r : TopicRow => r.id == id) row = true := by simp [hid]
  have hpos : 0 < s.topics.countP (fun r => r.id == id) :=
    List.countP_pos_iff.mpr ⟨row, List.mem_of_find?_eq_some hfind, hpred⟩
  have h2 : ¬((deleteRows s.topics (fun r => r.id == id)).2 = 0) := by
    simp only [deleteRows]
    omega
  constructor
  · unfold delete_topic
    rw [if_neg h2]
  · unfold get_topic increment_revision
    rw [deleteRows_find?_none]
    rfl

/-- The member record `create_member` returns for a request. -/
def createdMember (id now : String) (request : CreateMemberRequest) : TeamMember :=
  { id := id
    display_name := request.display_name
    email := request.email
    active := request.active
    tags := request.tags
    color := request.color
    updated_at := now
    version := 1 }

/-- The tag record `create_tag` returns for a request. -/
def createdTag (id now : String) (request : CreateTagRequest) : Tag :=
  { id := id
    name := request.name
    search_keywords := request.search_keywords
    hinweise := request.hinweise
    copy_paste_text := request.copy_paste_text
    color := request.color
    is_super_tag := request.is_super_tag
    is_gvpl_tag := request.is_gvpl_tag
    created_at := now
    modified_at := now
    created_by := request.created_by
    version := 1 }

/-- The topic record `create_topic` returns for a request. -/
def createdTopic (id now : String) (request : CreateTopicRequest) : Topic :=
  { id := id
    header := request.header
    description := request.description
    tags := request.tags
    search_keywords := request.search_keywords
    validity := request.validity.getD TopicValidity.default
    notes := request.notes
    raci := request.raci
    updated_at := now
    priority := request.priority
    has_file_number := request.has_file_number
    file_number := request.file_number
    has_shared_file_path := request.has_shared_file_path
    shared_file_path := request.shared_file_path
    size := request.size
    version := 1 }

lemma create_member_ok (s : Store) (id now : String) (request : CreateMemberRequest)
    (hfresh : s.members.any (fun r => r.id == id) = false) :
    create_member s id now request
      = (.ok (createdMember id now request),
         increment_revision
           { s with members := s.members ++ [memberRowOf (createdMember id now request)] }
           now) := by
  unfold create_member
  rw [hfresh]
  rfl

lemma create_tag_ok (s : Store) (id now : String) (request : CreateTagRequest)
    (hfresh : s.tags.any (fun r => r.id == id) = false) :
    create_tag s id now request
      = (.ok (createdTag id now request),
         increment_revision
           { s with tags := s.tags ++ [tagRowOf (createdTag id now request)] }
           now) := by
  unfold create_tag
  rw [hfresh]
  rfl

lemma create_topic_ok (s : Store) (id now : String) (request : CreateTopicRequest)
    (hfresh : s.topics.any (fun r => r.id == id) = false) :
    create_topic s id now request
      = (.ok (createdTopic id now request),
         increment_revision
           { s with topics := s.topics ++ [topicRowOf (createdTopic id now request)] }
           now) := by
  unfold create_topic
  rw [hfresh]
  rfl

lemma get_member_append_fresh (s : Store) (id now : String) (m : TeamMember)
    (hid : m.id = id)
    (hfresh : s.members.any (fun r => r.id == id) = false) :
    get_member
      (increment_revision { s with members := s.members ++ [memberRowOf m] } now) id
      = some m := by
  have h1 : s.members.find? (fun r => r.id == id) = none :=
    List.find?_eq_none.mpr (by
      intro x hx
      have := List.any_eq_false.mp hfresh x hx
      simpa using this)
  unfold get_member increment_revision
  simp only [List.find?_append, h1, Option.none_or]
  have hp : (fun r : MemberRow => r.id == id) (memberRowOf m) = true := by
    simp [memberRowOf, hid]
  have h2 : List.find? (fun r : MemberRow => r.id == id) [memberRowOf m] = some (memberRowOf m) :=
    List.find?_cons_of_pos _ hp
  rw [h2, Option.map_some', member_from_row_memberRowOf]

lemma get_tag_append_fresh (s : Store) (id now : String) (g : Tag)
    (hid : g.id = id)
    (hfresh : s.tags.any (fun r => r.id == id) = false) :
    get_tag
      (increment_revision { s with tags := s.tags ++ [tagRowOf g] } now) id
      = some g := by
  have h1 : s.tags.find? (fun r => r.id == id) = none :=
    List.find?_eq_none.mpr (by
      intro x hx
      have := List.any_eq_false.mp hfresh x hx
      simpa using this)
  unfold get_tag increment_revision
  simp only [List.find?_append, h1, Option.none_or]
  have hp : (fun r : TagRow => r.id == id) (tagRowOf g) = true := by
    simp [tagRowOf, hid]
  have h2 : List.find? (fun r : TagRow => r.id == id) [tagRowOf g] = some (tagRowOf g) :=
    List.find?_cons_of_pos _ hp
  rw [h2, Option.map_some', tag_from_row_tagRowOf]

lemma get_topic_append_fresh (s : Store) (id now : String) (t : Topic)
    (hid : t.id = id)
    (hfresh : s.topics.any (fun r => r.id == id) = false) :
    get_topic
      (increment_revision { s with topics := s.topics ++ [topicRowOf t] } now) id
      = some t := by
  have h1 : s.topics.find? (fun r => r.id == id) = none :=
    List.find?_eq_none.mpr (by
      intro x hx
      have := List.any_eq_false.mp hfresh x hx
      simpa using this)
  unfold get_topic increment_revision
  simp only [List.find?_append, h1, Option.none_or]
  have hp : (fun r : TopicRow => r.id == id) (topicRowOf t) = true := by
    simp [topicRowOf, hid]
  have h2 : List.find? (fun r : TopicRow => r.id == id) [topicRowOf t] = some (topicRowOf t) :=
    List.find?_cons_of_pos _ hp
  rw [h2, Option.map_some', topic_from_row_topicRowOf]

/-! #### The batch-update precondition and loop lemmas -/

/-- Every listed topic exists in `rows` and passes its version check there:
the hypothesis of the all-succeed half of the batch contract, stated against
the table as it is when the batch starts. -/
def batchPre (rows : List TopicRow) (updates : List (String × UpdateTopicRequest)) : Bool :=
  updates.all (fun u =>
    match rows.find? (fun r => r.id == u.1) with
    | none => false
    | some row =>
      match u.2.expected_version with
      | none => true
      | some v => row.version == v)

lemma condUpdate_find_other (rows : List TopicRow) (tid : String) (v : Int)
    (f : TopicRow → TopicRow) (hf : ∀ r, (f r).id = r.id) (id2 : String) (hne : id2 ≠ tid) :
    (condUpdateRows rows (fun r => r.id == tid && r.version == v) f).1.find?
        (fun r => r.id == id2)
      = rows.find? (fun r => r.id == id2) := by
  have hq : ∀ r : TopicRow,
      (fun r : TopicRow => r.id == id2) (f r) = (r.id == id2) := by
    intro r
    simp [hf r]
  rw [find?_condUpdate _ _ _ _ hq]
  cases hfind : rows.find? (fun r => r.id == id2) with
  | none => rfl
  | some row2 =>
    have hb : (row2.id == id2) = true := by simpa using List.find?_some hfind
    have hid2 : row2.id = id2 := eq_of_beq hb
    have hpred : ((fun r : TopicRow => r.id == tid && r.version == v) row2) = false := by
      have : (row2.id == tid) = false := by
        rw [hid2]
        exact beq_eq_false_iff_ne.mpr hne
      simp [this]
    rw [Option.map_some', if_neg (by simp [hpred])]

lemma batchPre_congr (updates : List (String × UpdateTopicRequest)) :
    ∀ (rows1 rows2 : List TopicRow),
    (∀ u ∈ updates, rows1.find? (fun r => r.id == u.1) = rows2.find? (fun r => r.id == u.1)) →
    batchPre rows1 updates = batchPre rows2 updates := by
  induction updates with
  | nil => intro rows1 rows2 _; rfl
  | cons u us ih =>
    intro rows1 rows2 h
    have hu := h u (List.mem_cons_self u us)
    have hus := ih rows1 rows2 (fun u2 hu2 => h u2 (List.mem_cons_of_mem u hu2))
    simp only [batchPre, List.all_cons] at *
    rw [hu, hus]

lemma batchLoop_ok (updates : List (String × UpdateTopicRequest)) :
    ∀ (rows : List TopicRow) (now : String),
    (updates.map Prod.fst).Nodup →
    batchPre rows updates = true →
    ∃ ts rows2, batchLoop rows updates now = .ok (ts, rows2) ∧
      ts.length = updates.length ∧
      (∀ p ∈ ts.zip updates, p.1.id = p.2.1) ∧
      (∀ u ∈ updates, ∃ rOld rNew,
        rows.find? (fun r => r.id == u.1) = some rOld ∧
        rows2.find? (fun r => r.id == u.1) = some rNew ∧
        rNew.version = rOld.version + 1) ∧
      (∀ id2, (∀ u ∈ updates, u.1 ≠ id2) →
        rows2.find? (fun r => r.id == id2) = rows.find? (fun r => r.id == id2)) := by
  induction updates with
  | nil =>
    intro rows now _ _
    exact ⟨[], rows, rfl, rfl, by simp, by simp, fun id2 _ => rfl⟩
  | cons u rest ih =>
    obtain ⟨tid, req⟩ := u
    intro rows now hnd hpre
    simp only [List.map_cons, List.nodup_cons] at hnd
    obtain ⟨hnd1, hnd2⟩ := hnd
    simp only [batchPre, List.all_cons, Bool.and_eq_true] at hpre
    obtain ⟨hpre1, hpre2⟩ := hpre
    cases hf : rows.find? (fun r => r.id == tid) with
    | none =>
      rw [hf] at hpre1
      exact absurd hpre1 (by simp)
    | some row0 =>
      rw [hf] at hpre1
      have hid0 : row0.id = tid := eq_of_beq (by simpa using List.find?_some hf)
      have hpredrow : (fun r : TopicRow =>
          r.id == tid && r.version == (topic_from_row row0).version) row0 = true := by
        simp [hid0]
        rfl
      have hcount := condUpdate_count_pos rows
        (fun r : TopicRow => r.id == tid && r.version == (topic_from_row row0).version)
        (topicRowUpdate (mergeTopic (topic_from_row row0) req tid now))
        row0 (List.mem_of_find?_eq_some hf) hpredrow
      have hrestne : ∀ u2 ∈ rest, u2.1 ≠ tid := by
        intro u2 hu2 hcontra
        exact hnd1 (hcontra ▸ List.mem_map_of_mem Prod.fst hu2)
      have hpres : ∀ u2 ∈ rest,
          (condUpdateRows rows
            (fun r => r.id == tid && r.version == (topic_from_row row0).version)
            (topicRowUpdate (mergeTopic (topic_from_row row0) req tid now))).1.find? (fun r => r.id == u2.1)
            = rows.find? (fun r => r.id == u2.1) := by
        intro u2 hu2
        exact condUpdate_find_other rows tid (topic_from_row row0).version
          (topicRowUpdate (mergeTopic (topic_from_row row0) req tid now))
          (fun r => rfl) u2.1 (hrestne u2 hu2)
      have hpre_rest : batchPre
          (condUpdateRows rows
            (fun r => r.id == tid && r.version == (topic_from_row row0).version)
            (topicRowUpdate (mergeTopic (topic_from_row row0) req tid now))).1 rest = true := by
        rw [batchPre_congr rest _ rows hpres]
        exact hpre2
      obtain ⟨ts, rows2, hloop, hlen, hzip, hupd, hframe⟩ :=
        ih _ now hnd2 hpre_rest
      have hq : ∀ r : TopicRow,
          ((fun r : TopicRow => r.id == tid)
            (topicRowUpdate (mergeTopic (topic_from_row row0) req tid now) r))
            = (r.id == tid) := fun r => rfl
      have hfind1 : (condUpdateRows rows
            (fun r => r.id == tid && r.version == (topic_from_row row0).version)
            (topicRowUpdate (mergeTopic (topic_from_row row0) req tid now))).1.find? (fun r => r.id == tid)
          = some (topicRowUpdate (mergeTopic (topic_from_row row0) req tid now) row0) := by
        rw [find?_condUpdate _ _ _ _ hq, hf, Option.map_some', if_pos hpredrow]
      have hfind2 : rows2.find? (fun r => r.id == tid)
          = some (topicRowUpdate (mergeTopic (topic_from_row row0) req tid now) row0) := by
        rw [hframe tid hrestne, hfind1]
      have hassemble : ∀ hloopEq : batchLoop rows ((tid, req) :: rest) now
            = .ok (mergeTopic (topic_from_row row0) req tid now :: ts, rows2),
          ∃ ts2 rows3, batchLoop rows ((tid, req) :: rest) now = .ok (ts2, rows3) ∧
            ts2.length = ((tid, req) :: rest).length ∧
            (∀ p ∈ ts2.zip ((tid, req) :: rest), p.1.id = p.2.1) ∧
            (∀ u2 ∈ (tid, req) :: rest, ∃ rOld rNew,
              rows.find? (fun r => r.id == u2.1) = some rOld ∧
              rows3.find? (fun r => r.id == u2.1) = some rNew ∧
              rNew.version = rOld.version + 1) ∧
            (∀ id2, (∀ u2 ∈ (tid, req) :: rest, u2.1 ≠ id2) →
              rows3.find? (fun r => r.id == id2) = rows.find? (fun r => r.id == id2)) := by
        intro hloopEq
        refine ⟨_, rows2, hloopEq, by simp [hlen], ?_, ?_, ?_⟩
        · intro p hp
          rw [List.zip_cons_cons] at hp
          rcases List.mem_cons.mp hp with hp | hp
          · rw [hp]
            rfl
          · exact hzip p hp
        · intro u2 hu2
          rcases List.mem_cons.mp hu2 with hu2 | hu2
          · subst hu2
            exact ⟨row0, _, hf, hfind2, rfl⟩
          · obtain ⟨rOld, rNew, h1, h2, h3⟩ := hupd u2 hu2
            exact ⟨rOld, rNew, (hpres u2 hu2) ▸ h1, h2, h3⟩
        · intro id2 hall
          rw [hframe id2 (fun u2 hu2 => hall u2 (List.mem_cons_of_mem _ hu2)),
            condUpdate_find_other rows tid (topic_from_row row0).version
              (topicRowUpdate (mergeTopic (topic_from_row row0) req tid now))
              (fun r => rfl) id2
              (Ne.symm (hall (tid, req) (List.mem_cons_self _ _)))]
      cases hev : req.expected_version with
      | none =>
        apply hassemble
        simp only [batchLoop]
        rw [hf, Option.map_some', hev]
        simp only [if_neg hcount, hloop, Except.map]
      | some v =>
        have hveq : (topic_from_row row0).version = v := by
          rw [hev] at hpre1
          exact eq_of_beq hpre1
        apply hassemble
        simp only [batchLoop]
        rw [hf, Option.map_some', hev]
        simp only [if_pos hveq, if_neg hcount, hloop, Except.map]

lemma batchLoop_fail (updates : List (String × UpdateTopicRequest)) :
    ∀ (rows : List TopicRow) (now : String),
    (updates.map Prod.fst).Nodup →
    batchPre rows updates = false →
    ∃ e, batchLoop rows updates now = .error e := by
  induction updates with
  | nil =>
    intro rows now _ hpre
    exact absurd hpre (by simp [batchPre])
  | cons u rest ih =>
    obtain ⟨tid, req⟩ := u
    intro rows now hnd hpre
    simp only [List.map_cons, List.nodup_cons] at hnd
    obtain ⟨hnd1, hnd2⟩ := hnd
    simp only [batchPre, List.all_cons, Bool.and_eq_false_iff] at hpre
    cases hf : rows.find? (fun r => r.id == tid) with
    | none =>
      refine ⟨.notFound ("Topic " ++ tid ++ " not found"), ?_⟩
      simp only [batchLoop]
      rw [hf]
      rfl
    | some row0 =>
      have hid0 : row0.id = tid := eq_of_beq (by simpa using List.find?_some hf)
      have hrestne : ∀ u2 ∈ rest, u2.1 ≠ tid := by
        intro u2 hu2 hcontra
        exact hnd1 (hcontra ▸ List.mem_map_of_mem Prod.fst hu2)
      have hpredrow : (fun r : TopicRow =>
          r.id == tid && r.version == (topic_from_row row0).version) row0 = true := by
        simp [hid0]
        rfl
      have hcount := condUpdate_count_pos rows
        (fun r : TopicRow => r.id == tid && r.version == (topic_from_row row0).version)
        (topicRowUpdate (mergeTopic (topic_from_row row0) req tid now))
        row0 (List.mem_of_find?_eq_some hf) hpredrow
      have hpres : ∀ u2 ∈ rest,
          (condUpdateRows rows
            (fun r => r.id == tid && r.version == (topic_from_row row0).version)
            (topicRowUpdate (mergeTopic (topic_from_row row0) req tid now))).1.find?
              (fun r => r.id == u2.1)
            = rows.find? (fun r => r.id == u2.1) := by
        intro u2 hu2
        exact condUpdate_find_other rows tid (topic_from_row row0).version
          (topicRowUpdate (mergeTopic (topic_from_row row0) req tid now))
          (fun r => rfl) u2.1 (hrestne u2 hu2)
      cases hev : req.expected_version with
      | none =>
        rw [hf, hev] at hpre
        have hpre2 : batchPre rows rest = false := by
          rcases hpre with hpre | hpre
          · exact absurd hpre (by simp)
          · exact hpre
        have hpre_rest : batchPre
            (condUpdateRows rows
              (fun r => r.id == tid && r.version == (topic_from_row row0).version)
              (topicRowUpdate (mergeTopic (topic_from_row row0) req tid now))).1 rest
            = false := by
          rw [batchPre_congr rest _ rows hpres]
          exact hpre2
        obtain ⟨e, hloop⟩ := ih _ now hnd2 hpre_rest
        refine ⟨e, ?_⟩
        simp only [batchLoop]
        rw [hf, Option.map_some', hev]
        simp only [if_neg hcount, hloop, Except.map]
      | some v =>
        rw [hf, hev] at hpre
        by_cases hveq : (topic_from_row row0).version = v
        · have hpre2 : batchPre rows rest = false := by
            rcases hpre with hpre | hpre
            · rw [show ((row0.version == v) = false) ↔ ¬(row0.version = v) from by simp] at hpre
              exact absurd hveq hpre
            · exact hpre
          have hpre_rest : batchPre
              (condUpdateRows rows
                (fun r => r.id == tid && r.version == (topic_from_row row0).version)
                (topicRowUpdate (mergeTopic (topic_from_row row0) req tid now))).1 rest
              = false := by
            rw [batchPre_congr rest _ rows hpres]
            exact hpre2
          obtain ⟨e, hloop⟩ := ih _ now hnd2 hpre_rest
          refine ⟨e, ?_⟩
          simp only [batchLoop]
          rw [hf, Option.map_some', hev]
          simp only [if_pos hveq, if_neg hcount, hloop, Except.map]
        · refine ⟨.conflict
            ("Version mismatch for topic " ++ tid ++ ": expected "
              ++ toString v ++ ", current " ++ toString (topic_from_row row0).version)
            (topic_from_row row0).version, ?_⟩
          simp only [batchLoop]
          rw [hf, Option.map_some', hev]
          simp only [if_neg hveq]

/-! ### Concrete fixtures used by the witnesses -/

def raci1 : TopicRaci :=
  { r1_member_id := "m1", r2_member_id := none, r3_member_id := none
    c_member_ids := ["m2"], i_member_ids := [] }

def memberRec1 : TeamMember :=
  { id := "m1", display_name := "Alice", email := none, active := true
    tags := some ["ops"], color := none, updated_at := "t0", version := 1 }

def tagRec1 : Tag :=
  { id := "g1", name := "ops", search_keywords := some ["kw1"], hinweise := none
    copy_paste_text := none, color := none, is_super_tag := none, is_gvpl_tag := none
    created_at := "t0", modified_at := "t0", created_by := "m1", version := 1 }

def topicRec1 : Topic :=
  { id := "t1", header := "Password Reset", description := some "how to reset"
    tags := some ["ops"], search_keywords := some ["pw"]
    validity := TopicValidity.default, notes := none, raci := raci1
    updated_at := "t0", priority := none, has_file_number := none, file_number := none
    has_shared_file_path := none, shared_file_path := none, size := some .M, version := 1 }

def topicRec2 : Topic :=
  { id := "t2", header := "Onboarding", description := none
    tags := none, search_keywords := none
    validity := TopicValidity.default, notes := none, raci := raci1
    updated_at := "t0", priority := none, has_file_number := none, file_number := none
    has_shared_file_path := none, shared_file_path := none, size := none, version := 3 }

def store1 : Store :=
  { schema_version := 1, revision_id := 5, generated_at := "t0"
    members := [memberRowOf memberRec1]
    tags := [tagRowOf tagRec1]
    topics := [topicRowOf topicRec1, topicRowOf topicRec2] }

def updTopicReq1 : UpdateTopicRequest :=
  { header := some "Password Rotation", description := none, tags := none
    search_keywords := none, validity := none, notes := none, raci := none
    priority := some 2, has_file_number := none, file_number := none
    has_shared_file_path := none, shared_file_path := none, size := none
    expected_version := some 1 }

def updTopicReq2 : UpdateTopicRequest :=
  { header := none, description := some "welcome pack", tags := none
    search_keywords := none, validity := none, notes := none, raci := none
    priority := none, has_file_number := none, file_number := none
    has_shared_file_path := none, shared_file_path := none, size := none
    expected_version := none }

def updMemberReq1 : UpdateMemberRequest :=
  { display_name := some "Alice B", email := none, active := none, tags := none
    color := none, expected_version := some 1 }

def updTagReq1 : UpdateTagRequest :=
  { name := none, search_keywords := some ["kw2"], hinweise := none
    copy_paste_text := none, color := none, is_super_tag := none
    is_gvpl_tag := none, expected_version := some 1 }

def creMemberReq1 : CreateMemberRequest :=
  { display_name := "Bob", email := some "b@x", active := true
    tags := some ["dev"], color := some "#fff" }

def creTagReq1 : CreateTagRequest :=
  { name := "legal", search_keywords := some ["law", "court"], hinweise := none
    copy_paste_text := none, color := none, is_super_tag := some true
    is_gvpl_tag := none, created_by := "m1" }

def creTopicReq1 : CreateTopicRequest :=
  { header := "Audit Prep", description := some "yearly audit"
    tags := some ["legal"], search_keywords := some ["audit"]
    validity := none, notes := some "check list", raci := raci1
    priority := some 1, has_file_number := some true, file_number := some "F-7"
    has_shared_file_path := none, shared_file_path := none, size := some .XL }

/-! ### The claims -/

/-- C9: for every call to `SearchIndex::search` with an empty or
whitespace-only query string, the call returns an empty result list and no
error, regardless of the contents of the index. -/
theorem c9_blank_search_returns_empty_list
    (engine : String → Option (List SearchResult)) (q : String) (limit offset : Nat)
    (hblank : q.toList.all isRustWhitespace = true) :
    SearchIndex.search engine q limit offset = .ok [] := by
  unfold SearchIndex.search
  rw [if_pos (trimRust_isEmpty_of_blank q hblank)]

theorem c9_witness :
    SearchIndex.search (fun _ => some [{ topic_id := "t1", score := 3 }]) " " 10 0
      = .ok [] :=
  c9_blank_search_returns_empty_list _ " " 10 0 (by decide)

lemma search_results_length_le (engine : String → Option (List SearchResult))
    (q : String) (limit offset : Nat) (rs : List SearchResult)
    (h : SearchIndex.search engine q limit offset = .ok rs) : rs.length ≤ limit := by
  unfold SearchIndex.search at h
  by_cases hb : (trimRust q).isEmpty
  · rw [if_pos hb] at h
    have : ([] : List SearchResult) = rs := by simpa using h
    rw [← this]
    simp
  · rw [if_neg hb] at h
    cases heng : engine q with
    | none => rw [heng] at h; exact absurd h (by simp)
    | some ranked =>
      rw [heng] at h
      have hrs : ((ranked.take (limit + offset)).drop offset).take limit = rs := by
        simpa using h
      rw [← hrs, List.length_take]
      exact min_le_left _ _

/-- C10: the search API clamps the effective limit to
`min requestedLimit 100`, echoes the clamped limit in the response, and never
returns more than the clamped limit (hence never more than 100) results. -/
theorem c10_search_limit_clamped_to_100 (s : Store)
    (engine : String → Option (List SearchResult)) (q : String)
    (limitReq offsetReq : Nat) (resp : SearchResponse) (rev : Int) (s2 : Store)
    (h : search_topics s engine q limitReq offsetReq = (.ok (resp, rev), s2)) :
    resp.limit = min limitReq 100 ∧
    resp.results.length ≤ resp.limit ∧
    resp.results.length ≤ 100 := by
  simp only [search_topics] at h
  cases hs : SearchIndex.search engine q (min limitReq MAX_SEARCH_LIMIT) offsetReq with
  | error e => rw [hs] at h; exact absurd h (by simp)
  | ok rs =>
    rw [hs] at h
    have hlen := search_results_length_le engine q (min limitReq MAX_SEARCH_LIMIT)
      offsetReq rs hs
    simp only [Prod.mk.injEq, Except.ok.injEq] at h
    obtain ⟨⟨h1, -⟩, -⟩ := h
    subst h1
    have hflen : (rs.filterMap
        (fun sr => (get_topic s sr.topic_id).map (fun t => (t, sr.score)))).length
        ≤ rs.length := List.length_filterMap_le _ _
    refine ⟨rfl, ?_, ?_⟩
    · exact le_trans hflen hlen
    · exact le_trans (le_trans hflen hlen) (min_le_right _ _)

def engine1 : String → Option (List SearchResult) :=
  fun _ => some [{ topic_id := "t1", score := 9 }, { topic_id := "zz", score := 4 }]

def searchResp1 : SearchResponse :=
  { results := [(topicRec1, 9)], total := 1, limit := 100, offset := 0 }

theorem c10_witness :
    searchResp1.limit = min 500 100 ∧
    searchResp1.results.length ≤ searchResp1.limit ∧
    searchResp1.results.length ≤ 100 :=
  c10_search_limit_clamped_to_100 store1 engine1 "password" 500 0 searchResp1 5 store1
    (by rfl)

/-- C8: a create request whose required field is empty or whitespace-only
(member display name, tag name, tag createdBy, topic header, or the RACI
primary responsible r1MemberId) fails with a Validation error, creates no
record, and leaves the store — including the global revision — unchanged. -/
theorem c8_blank_required_field_validation
    (s : Store) (id now : String) (idx : Except AppError Unit)
    (mreq : CreateMemberRequest) (greqA greqB : CreateTagRequest)
    (treqA treqB : CreateTopicRequest)
    (hm : mreq.display_name.toList.all isRustWhitespace = true)
    (hga : greqA.name.toList.all isRustWhitespace = true)
    (hgb : greqB.created_by.toList.all isRustWhitespace = true)
    (hta : treqA.header.toList.all isRustWhitespace = true)
    (htb : treqB.raci.r1_member_id.toList.all isRustWhitespace = true) :
    api_create_member s id now mreq
      = (.error (.validation "Display name is required", s.revision_id), s) ∧
    api_create_tag s id now greqA idx
      = (.error (.validation "Tag name is required", s.revision_id), s) ∧
    (∃ msg, api_create_tag s id now greqB idx
      = (.error (.validation msg, s.revision_id), s)) ∧
    api_create_topic s id now treqA idx
      = (.error (.validation "Header is required", s.revision_id), s) ∧
    (∃ msg, api_create_topic s id now treqB idx
      = (.error (.validation msg, s.revision_id), s)) := by
  refine ⟨?_, ?_, ?_, ?_, ?_⟩
  · unfold api_create_member
    rw [if_pos (trimRust_isEmpty_of_blank _ hm)]
  · unfold api_create_tag
    rw [if_pos (trimRust_isEmpty_of_blank _ hga)]
  · by_cases hn : (trimRust greqB.name).isEmpty = true
    · refine ⟨"Tag name is required", ?_⟩
      unfold api_create_tag
      rw [if_pos hn]
    · refine ⟨"Created by (member ID) is required", ?_⟩
      unfold api_create_tag
      rw [if_neg hn, if_pos (trimRust_isEmpty_of_blank _ hgb)]
  · unfold api_create_topic
    rw [if_pos (trimRust_isEmpty_of_blank _ hta)]
  · by_cases hh : (trimRust treqB.header).isEmpty = true
    · refine ⟨"Header is required", ?_⟩
      unfold api_create_topic
      rw [if_pos hh]
    · refine ⟨"Primary responsible (r1MemberId) is required", ?_⟩
      unfold api_create_topic
      rw [if_neg hh, if_pos (trimRust_isEmpty_of_blank _ htb)]

def blankMemberReq : CreateMemberRequest :=
  { display_name := " ", email := none, active := true, tags := none, color := none }

def blankNameTagReq : CreateTagRequest :=
  { name := "", search_keywords := none, hinweise := none, copy_paste_text := none
    color := none, is_super_tag := none, is_gvpl_tag := none, created_by := "m1" }

def blankCreatorTagReq : CreateTagRequest :=
  { name := "ops", search_keywords := none, hinweise := none, copy_paste_text := none
    color := none, is_super_tag := none, is_gvpl_tag := none, created_by := "  " }

def blankHeaderTopicReq : CreateTopicRequest :=
  { header := "", description := none, tags := none, search_keywords := none
    validity := none, notes := none, raci := raci1, priority := none
    has_file_number := none, file_number := none, has_shared_file_path := none
    shared_file_path := none, size := none }

def blankR1TopicReq : CreateTopicRequest :=
  { header := "Valid", description := none, tags := none, search_keywords := none
    validity := none, notes := none
    raci := { r1_member_id := " ", r2_member_id := none, r3_member_id := none
              c_member_ids := [], i_member_ids := [] }
    priority := none, has_file_number := none, file_number := none
    has_shared_file_path := none, shared_file_path := none, size := none }

theorem c8_witness :
    api_create_member store1 "x1" "t9" blankMemberReq
      = (.error (.validation "Display name is required", store1.revision_id), store1) ∧
    api_create_tag store1 "x1" "t9" blankNameTagReq (.ok ())
      = (.error (.validation "Tag name is required", store1.revision_id), store1) ∧
    (∃ msg, api_create_tag store1 "x1" "t9" blankCreatorTagReq (.ok ())
      = (.error (.validation msg, store1.revision_id), store1)) ∧
    api_create_topic store1 "x1" "t9" blankHeaderTopicReq (.ok ())
      = (.error (.validation "Header is required", store1.revision_id), store1) ∧
    (∃ msg, api_create_topic store1 "x1" "t9" blankR1TopicReq (.ok ())
      = (.error (.validation msg, store1.revision_id), store1)) :=
  c8_blank_required_field_validation store1 "x1" "t9" (.ok ())
    blankMemberReq blankNameTagReq blankCreatorTagReq blankHeaderTopicReq blankR1TopicReq
    (by decide) (by decide) (by decide) (by decide) (by decide)

/-- C3: an update supplying an `expected_version` different from the stored
version fails with a Conflict error whose `currentVersion` detail equals the
actual stored version, and the store is left unmodified — for members, tags
and topics alike. -/
theorem c3_conflict_carries_current_version
    (s : Store) (now : String) (idm idg idt : String)
    (mreq : UpdateMemberRequest) (greq : UpdateTagRequest) (treq : UpdateTopicRequest)
    (m : TeamMember) (g : Tag) (t : Topic) (vm vg vt : Int)
    (hm : get_member s idm = some m) (hmv : mreq.expected_version = some vm)
    (hmne : vm ≠ m.version)
    (hg : get_tag s idg = some g) (hgv : greq.expected_version = some vg)
    (hgne : vg ≠ g.version)
    (ht : get_topic s idt = some t) (htv : treq.expected_version = some vt)
    (htne : vt ≠ t.version) :
    (∃ msg, update_member s idm mreq now = (.error (.conflict msg m.version), s) ∧
      errorDetailsCurrentVersion (.conflict msg m.version) = some m.version) ∧
    (∃ msg, update_tag s idg greq now = (.error (.conflict msg g.version), s) ∧
      errorDetailsCurrentVersion (.conflict msg g.version) = some g.version) ∧
    (∃ msg, update_topic s idt treq now = (.error (.conflict msg t.version), s) ∧
      errorDetailsCurrentVersion (.conflict msg t.version) = some t.version) := by
  refine ⟨⟨_, update_member_conflict s idm mreq now m vm hm hmv hmne, rfl⟩,
    ⟨_, update_tag_conflict s idg greq now g vg hg hgv hgne, rfl⟩,
    ⟨_, update_topic_conflict s idt treq now t vt ht htv htne, rfl⟩⟩

def staleMemberReq : UpdateMemberRequest :=
  { display_name := some "Al", email := none, active := none, tags := none
    color := none, expected_version := some 7 }

def staleTagReq : UpdateTagRequest :=
  { name := some "ops2", search_keywords := none, hinweise := none
    copy_paste_text := none, color := none, is_super_tag := none
    is_gvpl_tag := none, expected_version := some 7 }

def staleTopicReq : UpdateTopicRequest :=
  { header := some "X", description := none, tags := none, search_keywords := none
    validity := none, notes := none, raci := none, priority := none
    has_file_number := none, file_number := none, has_shared_file_path := none
    shared_file_path := none, size := none, expected_version := some 7 }

theorem c3_witness :
    (∃ msg, update_member store1 "m1" staleMemberReq "t9"
        = (.error (.conflict msg memberRec1.version), store1) ∧
      errorDetailsCurrentVersion (.conflict msg memberRec1.version)
        = some memberRec1.version) ∧
    (∃ msg, update_tag store1 "g1" staleTagReq "t9"
        = (.error (.conflict msg tagRec1.version), store1) ∧
      errorDetailsCurrentVersion (.conflict msg tagRec1.version)
        = some tagRec1.version) ∧
    (∃ msg, update_topic store1 "t1" staleTopicReq "t9"
        = (.error (.conflict msg topicRec1.version), store1) ∧
      errorDetailsCurrentVersion (.conflict msg topicRec1.version)
        = some topicRec1.version) :=
  c3_conflict_carries_current_version store1 "t9" "m1" "g1" "t1"
    staleMemberReq staleTagReq staleTopicReq memberRec1 tagRec1 topicRec1 7 7 7
    (by rfl) (by rfl) (by decide) (by rfl) (by rfl) (by decide) (by rfl) (by rfl) (by decide)

/-- C6: deleting an identity not present in the store fails with NotFound and
leaves the store — including the global revision — unchanged; deleting a
present identity removes the record and increases the revision by exactly 1.
Holds for members, tags and topics. -/
theorem c6_delete_not_found_vs_present
    (s : Store) (now : String) (idma idga idta idmp idgp idtp : String)
    (m : TeamMember) (g : Tag) (t : Topic)
    (hma : get_member s idma = none) (hga : get_tag s idga = none)
    (hta : get_topic s idta = none)
    (hmp : get_member s idmp = some m) (hgp : get_tag s idgp = some g)
    (htp : get_topic s idtp = some t) :
    delete_member s idma now
      = (.error (.notFound ("Member " ++ idma ++ " not found")), s) ∧
    delete_tag s idga now
      = (.error (.notFound ("Tag " ++ idga ++ " not found")), s) ∧
    delete_topic s idta now
      = (.error (.notFound ("Topic " ++ idta ++ " not found")), s) ∧
    (∃ s1, delete_member s idmp now = (.ok (), s1) ∧
      s1.revision_id = s.revision_id + 1 ∧ get_member s1 idmp = none) ∧
    (∃ s1, delete_tag s idgp now = (.ok (), s1) ∧
      s1.revision_id = s.revision_id + 1 ∧ get_tag s1 idgp = none) ∧
    (∃ s1, delete_topic s idtp now = (.ok (), s1) ∧
      s1.revision_id = s.revision_id + 1 ∧ get_topic s1 idtp = none) := by
  obtain ⟨hd1, hg1⟩ := delete_member_present s idmp now m hmp
  obtain ⟨hd2, hg2⟩ := delete_tag_present s idgp now g hgp
  obtain ⟨hd3, hg3⟩ := delete_topic_present s idtp now t htp
  exact ⟨delete_member_absent s idma now hma,
    delete_tag_absent s idga now hga,
    delete_topic_absent s idta now hta,
    ⟨_, hd1, rfl, hg1⟩, ⟨_, hd2, rfl, hg2⟩, ⟨_, hd3, rfl, hg3⟩⟩

theorem c6_witness :
    delete_member store1 "nope" "t9"
      = (.error (.notFound ("Member " ++ "nope" ++ " not found")), store1) ∧
    delete_tag store1 "nope" "t9"
      = (.error (.notFound ("Tag " ++ "nope" ++ " not found")), store1) ∧
    delete_topic store1 "nope" "t9"
      = (.error (.notFound ("Topic " ++ "nope" ++ " not found")), store1) ∧
    (∃ s1, delete_member store1 "m1" "t9" = (.ok (), s1) ∧
      s1.revision_id = store1.revision_id + 1 ∧ get_member s1 "m1" = none) ∧
    (∃ s1, delete_tag store1 "g1" "t9" = (.ok (), s1) ∧
      s1.revision_id = store1.revision_id + 1 ∧ get_tag s1 "g1" = none) ∧
    (∃ s1, delete_topic store1 "t1" "t9" = (.ok (), s1) ∧
      s1.revision_id = store1.revision_id + 1 ∧ get_topic s1 "t1" = none) :=
  c6_delete_not_found_vs_present store1 "t9" "nope" "nope" "nope" "m1" "g1" "t1"
    memberRec1 tagRec1 topicRec1
    (by rfl) (by rfl) (by rfl) (by rfl) (by rfl) (by rfl)

/-- C4: after a successful topic or tag write (create, update, delete), the
API handler returns the same success response and the same committed store
whether the search-index synchronization step succeeded or failed — an
indexing failure is only logged and never rolls back or fails the write. -/
theorem c4_indexing_failure_only_logged
    (s : Store) (idC idU idD idGC idGU idGD now : String) (e : AppError)
    (treqC : CreateTopicRequest) (treqU : UpdateTopicRequest)
    (greqC : CreateTagRequest) (greqU : UpdateTagRequest)
    (tC tU : Topic) (gC gU : Tag) (sC sU sD sGC sGU sGD : Store)
    (hh : (trimRust treqC.header).isEmpty = false)
    (hr : (trimRust treqC.raci.r1_member_id).isEmpty = false)
    (hC : create_topic s idC now treqC = (.ok tC, sC))
    (hU : update_topic s idU treqU now = (.ok tU, sU))
    (hD : delete_topic s idD now = (.ok (), sD))
    (hgn : (trimRust greqC.name).isEmpty = false)
    (hgc : (trimRust greqC.created_by).isEmpty = false)
    (hGC : create_tag s idGC now greqC = (.ok gC, sGC))
    (hGU : update_tag s idGU greqU now = (.ok gU, sGU))
    (hGD : delete_tag s idGD now = (.ok (), sGD)) :
    (api_create_topic s idC now treqC (.error e) = (.ok (tC, sC.revision_id), sC) ∧
     api_create_topic s idC now treqC (.ok ()) = (.ok (tC, sC.revision_id), sC)) ∧
    (api_update_topic s idU treqU now (.error e) = (.ok (tU, sU.revision_id), sU) ∧
     api_update_topic s idU treqU now (.ok ()) = (.ok (tU, sU.revision_id), sU)) ∧
    (api_delete_topic s idD now (.error e) = (.ok ((), sD.revision_id), sD) ∧
     api_delete_topic s idD now (.ok ()) = (.ok ((), sD.revision_id), sD)) ∧
    (api_create_tag s idGC now greqC (.error e) = (.ok (gC, sGC.revision_id), sGC) ∧
     api_create_tag s idGC now greqC (.ok ()) = (.ok (gC, sGC.revision_id), sGC)) ∧
    (api_update_tag s idGU greqU now (.error e) = (.ok (gU, sGU.revision_id), sGU) ∧
     api_update_tag s idGU greqU now (.ok ()) = (.ok (gU, sGU.revision_id), sGU)) ∧
    (api_delete_tag s idGD now (.error e) = (.ok ((), sGD.revision_id), sGD) ∧
     api_delete_tag s idGD now (.ok ()) = (.ok ((), sGD.revision_id), sGD)) := by
  have hh2 : ¬((trimRust treqC.header).isEmpty = true) := by simp [hh]
  have hr2 : ¬((trimRust treqC.raci.r1_member_id).isEmpty = true) := by simp [hr]
  have hgn2 : ¬((trimRust greqC.name).isEmpty = true) := by simp [hgn]
  have hgc2 : ¬((trimRust greqC.created_by).isEmpty = true) := by simp [hgc]
  refine ⟨⟨?_, ?_⟩, ⟨?_, ?_⟩, ⟨?_, ?_⟩, ⟨?_, ?_⟩, ⟨?_, ?_⟩, ⟨?_, ?_⟩⟩ <;>
    simp only [api_create_topic, api_update_topic, api_delete_topic,
      api_create_tag, api_update_tag, api_delete_tag,
      if_neg hh2, if_neg hr2, if_neg hgn2, if_neg hgc2,
      hC, hU, hD, hGC, hGU, hGD]

def c4tC : Topic := createdTopic "t3" "t9" creTopicReq1
def c4sC : Store := (create_topic store1 "t3" "t9" creTopicReq1).2
def c4tU : Topic := mergeTopic topicRec1 updTopicReq2 "t1" "t9"
def c4sU : Store := (update_topic store1 "t1" updTopicReq2 "t9").2
def c4sD : Store := (delete_topic store1 "t1" "t9").2
def c4gC : Tag := createdTag "g2" "t9" creTagReq1
def c4sGC : Store := (create_tag store1 "g2" "t9" creTagReq1).2
def c4gU : Tag := mergeTag tagRec1 updTagReq1 "g1" "t9"
def c4sGU : Store := (update_tag store1 "g1" updTagReq1 "t9").2
def c4sGD : Store := (delete_tag store1 "g1" "t9").2

theorem c4_witness :
    (api_create_topic store1 "t3" "t9" creTopicReq1 (.error (.search "boom"))
        = (.ok (c4tC, c4sC.revision_id), c4sC) ∧
     api_create_topic store1 "t3" "t9" creTopicReq1 (.ok ())
        = (.ok (c4tC, c4sC.revision_id), c4sC)) ∧
    (api_update_topic store1 "t1" updTopicReq2 "t9" (.error (.search "boom"))
        = (.ok (c4tU, c4sU.revision_id), c4sU) ∧
     api_update_topic store1 "t1" updTopicReq2 "t9" (.ok ())
        = (.ok (c4tU, c4sU.revision_id), c4sU)) ∧
    (api_delete_topic store1 "t1" "t9" (.error (.search "boom"))
        = (.ok ((), c4sD.revision_id), c4sD) ∧
     api_delete_topic store1 "t1" "t9" (.ok ())
        = (.ok ((), c4sD.revision_id), c4sD)) ∧
    (api_create_tag store1 "g2" "t9" creTagReq1 (.error (.search "boom"))
        = (.ok (c4gC, c4sGC.revision_id), c4sGC) ∧
     api_create_tag store1 "g2" "t9" creTagReq1 (.ok ())
        = (.ok (c4gC, c4sGC.revision_id), c4sGC)) ∧
    (api_update_tag store1 "g1" updTagReq1 "t9" (.error (.search "boom"))
        = (.ok (c4gU, c4sGU.revision_id), c4sGU) ∧
     api_update_tag store1 "g1" updTagReq1 "t9" (.ok ())
        = (.ok (c4gU, c4sGU.revision_id), c4sGU)) ∧
    (api_delete_tag store1 "g1" "t9" (.error (.search "boom"))
        = (.ok ((), c4sGD.revision_id), c4sGD) ∧
     api_delete_tag store1 "g1" "t9" (.ok ())
        = (.ok ((), c4sGD.revision_id), c4sGD)) :=
  c4_indexing_failure_only_logged store1 "t3" "t1" "t1" "g2" "g1" "g1" "t9"
    (.search "boom") creTopicReq1 updTopicReq2 creTagReq1 updTagReq1
    c4tC c4tU c4gC c4gU c4sC c4sU c4sD c4sGC c4sGU c4sGD
    (by rfl) (by rfl) (by rfl) (by rfl) (by rfl) (by rfl) (by rfl) (by rfl)
    (by rfl) (by rfl)

/-- C2: every successful single-record update of a member, tag or topic
returns a record whose version is the previously stored version plus 1,
stores that incremented version, and increases the global revision by exactly
1; every create stores version 1 and also bumps the revision by exactly 1. -/
theorem c2_update_increments_version_and_revision
    (s : Store) (now : String) (idm idg idt idcm idcg idct : String)
    (mreq : UpdateMemberRequest) (greq : UpdateTagRequest) (treq : UpdateTopicRequest)
    (mcreq : CreateMemberRequest) (gcreq : CreateTagRequest) (tcreq : CreateTopicRequest)
    (m : TeamMember) (g : Tag) (t : Topic)
    (hm : get_member s idm = some m)
    (hmv : mreq.expected_version = none ∨ mreq.expected_version = some m.version)
    (hg : get_tag s idg = some g)
    (hgv : greq.expected_version = none ∨ greq.expected_version = some g.version)
    (ht : get_topic s idt = some t)
    (htv : treq.expected_version = none ∨ treq.expected_version = some t.version)
    (hfm : s.members.any (fun r => r.id == idcm) = false)
    (hfg : s.tags.any (fun r => r.id == idcg) = false)
    (hft : s.topics.any (fun r => r.id == idct) = false) :
    (∃ rm sm, update_member s idm mreq now = (.ok rm, sm) ∧
      rm.version = m.version + 1 ∧ sm.revision_id = s.revision_id + 1 ∧
      get_member sm idm = some rm) ∧
    (∃ rg sg, update_tag s idg greq now = (.ok rg, sg) ∧
      rg.version = g.version + 1 ∧ sg.revision_id = s.revision_id + 1 ∧
      get_tag sg idg = some rg) ∧
    (∃ rt st2, update_topic s idt treq now = (.ok rt, st2) ∧
      rt.version = t.version + 1 ∧ st2.revision_id = s.revision_id + 1 ∧
      get_topic st2 idt = some rt) ∧
    (∃ rm sm, create_member s idcm now mcreq = (.ok rm, sm) ∧
      rm.version = 1 ∧ sm.revision_id = s.revision_id + 1 ∧
      get_member sm idcm = some rm) ∧
    (∃ rg sg, create_tag s idcg now gcreq = (.ok rg, sg) ∧
      rg.version = 1 ∧ sg.revision_id = s.revision_id + 1 ∧
      get_tag sg idcg = some rg) ∧
    (∃ rt st2, create_topic s idct now tcreq = (.ok rt, st2) ∧
      rt.version = 1 ∧ st2.revision_id = s.revision_id + 1 ∧
      get_topic st2 idct = some rt) := by
  refine ⟨⟨_, _, update_member_ok s idm mreq now m hm hmv, rfl, rfl, ?_⟩,
    ⟨_, _, update_tag_ok s idg greq now g hg hgv, rfl, rfl, ?_⟩,
    ⟨_, _, update_topic_ok s idt treq now t ht htv, rfl, rfl, ?_⟩,
    ⟨_, _, create_member_ok s idcm now mcreq hfm, rfl, rfl, ?_⟩,
    ⟨_, _, create_tag_ok s idcg now gcreq hfg, rfl, rfl, ?_⟩,
    ⟨_, _, create_topic_ok s idct now tcreq hft, rfl, rfl, ?_⟩⟩
  · exact get_member_after_write s idm mreq m now hm
  · exact get_tag_after_write s idg greq g now hg
  · exact get_topic_after_write s idt treq t now ht
  · exact get_member_append_fresh s idcm now (createdMember idcm now mcreq) rfl hfm
  · exact get_tag_append_fresh s idcg now (createdTag idcg now gcreq) rfl hfg
  · exact get_topic_append_fresh s idct now (createdTopic idct now tcreq) rfl hft

theorem c2_witness :
    (∃ rm sm, update_member store1 "m1" updMemberReq1 "t9" = (.ok rm, sm) ∧
      rm.version = memberRec1.version + 1 ∧ sm.revision_id = store1.revision_id + 1 ∧
      get_member sm "m1" = some rm) ∧
    (∃ rg sg, update_tag store1 "g1" updTagReq1 "t9" = (.ok rg, sg) ∧
      rg.version = tagRec1.version + 1 ∧ sg.revision_id = store1.revision_id + 1 ∧
      get_tag sg "g1" = some rg) ∧
    (∃ rt st2, update_topic store1 "t1" updTopicReq1 "t9" = (.ok rt, st2) ∧
      rt.version = topicRec1.version + 1 ∧ st2.revision_id = store1.revision_id + 1 ∧
      get_topic st2 "t1" = some rt) ∧
    (∃ rm sm, create_member store1 "m2" "t9" creMemberReq1 = (.ok rm, sm) ∧
      rm.version = 1 ∧ sm.revision_id = store1.revision_id + 1 ∧
      get_member sm "m2" = some rm) ∧
    (∃ rg sg, create_tag store1 "g2" "t9" creTagReq1 = (.ok rg, sg) ∧
      rg.version = 1 ∧ sg.revision_id = store1.revision_id + 1 ∧
      get_tag sg "g2" = some rg) ∧
    (∃ rt st2, create_topic store1 "t3" "t9" creTopicReq1 = (.ok rt, st2) ∧
      rt.version = 1 ∧ st2.revision_id = store1.revision_id + 1 ∧
      get_topic st2 "t3" = some rt) :=
  c2_update_increments_version_and_revision store1 "t9" "m1" "g1" "t1" "m2" "g2" "t3"
    updMemberReq1 updTagReq1 updTopicReq1 creMemberReq1 creTagReq1 creTopicReq1
    memberRec1 tagRec1 topicRec1
    (by rfl) (Or.inr (by rfl)) (by rfl) (Or.inr (by rfl)) (by rfl) (Or.inr (by rfl))
    (by rfl) (by rfl) (by rfl)

/-- C5: a partial update is a shallow merge — every field left unset in the
request keeps its previous stored value and every supplied field replaces the
previous value wholesale — and a tag's createdAt and createdBy are never
changed by an update; the merged record is what gets stored. -/
theorem c5_partial_update_is_shallow_merge
    (s : Store) (now : String) (idm idg idt : String)
    (mreq : UpdateMemberRequest) (greq : UpdateTagRequest) (treq : UpdateTopicRequest)
    (m : TeamMember) (g : Tag) (t : Topic)
    (hm : get_member s idm = some m)
    (hmv : mreq.expected_version = none ∨ mreq.expected_version = some m.version)
    (hg : get_tag s idg = some g)
    (hgv : greq.expected_version = none ∨ greq.expected_version = some g.version)
    (ht : get_topic s idt = some t)
    (htv : treq.expected_version = none ∨ treq.expected_version = some t.version) :
    (∃ rm sm, update_member s idm mreq now = (.ok rm, sm) ∧
      get_member sm idm = some rm ∧
      rm.display_name = mreq.display_name.getD m.display_name ∧
      rm.email = mreq.email.or m.email ∧
      rm.active = mreq.active.getD m.active ∧
      rm.tags = mreq.tags.or m.tags ∧
      rm.color = mreq.color.or m.color) ∧
    (∃ rg sg, update_tag s idg greq now = (.ok rg, sg) ∧
      get_tag sg idg = some rg ∧
      rg.created_at = g.created_at ∧
      rg.created_by = g.created_by ∧
      rg.name = greq.name.getD g.name ∧
      rg.search_keywords = greq.search_keywords.or g.search_keywords ∧
      rg.hinweise = greq.hinweise.or g.hinweise ∧
      rg.copy_paste_text = greq.copy_paste_text.or g.copy_paste_text ∧
      rg.color = greq.color.or g.color ∧
      rg.is_super_tag = greq.is_super_tag.or g.is_super_tag ∧
      rg.is_gvpl_tag = greq.is_gvpl_tag.or g.is_gvpl_tag) ∧
    (∃ rt st2, update_topic s idt treq now = (.ok rt, st2) ∧
      get_topic st2 idt = some rt ∧
      rt.header = treq.header.getD t.header ∧
      rt.description = treq.description.or t.description ∧
      rt.tags = treq.tags.or t.tags ∧
      rt.search_keywords = treq.search_keywords.or t.search_keywords ∧
      rt.validity = treq.validity.getD t.validity ∧
      rt.notes = treq.notes.or t.notes ∧
      rt.raci = treq.raci.getD t.raci ∧
      rt.priority = treq.priority.or t.priority ∧
      rt.has_file_number = treq.has_file_number.or t.has_file_number ∧
      rt.file_number = treq.file_number.or t.file_number ∧
      rt.has_shared_file_path = treq.has_shared_file_path.or t.has_shared_file_path ∧
      rt.shared_file_path = treq.shared_file_path.or t.shared_file_path ∧
      rt.size = treq.size.or t.size) := by
  exact ⟨⟨_, _, update_member_ok s idm mreq now m hm hmv,
      get_member_after_write s idm mreq m now hm,
      rfl, rfl, rfl, rfl, rfl⟩,
    ⟨_, _, update_tag_ok s idg greq now g hg hgv,
      get_tag_after_write s idg greq g now hg,
      rfl, rfl, rfl, rfl, rfl, rfl, rfl, rfl, rfl⟩,
    ⟨_, _, update_topic_ok s idt treq now t ht htv,
      get_topic_after_write s idt treq t now ht,
      rfl, rfl, rfl, rfl, rfl, rfl, rfl, rfl, rfl, rfl, rfl, rfl, rfl⟩⟩

theorem c5_witness :
    (∃ rm sm, update_member store1 "m1" updMemberReq1 "t9" = (.ok rm, sm) ∧
      get_member sm "m1" = some rm ∧
      rm.display_name = updMemberReq1.display_name.getD memberRec1.display_name ∧
      rm.email = updMemberReq1.email.or memberRec1.email ∧
      rm.active = updMemberReq1.active.getD memberRec1.active ∧
      rm.tags = updMemberReq1.tags.or memberRec1.tags ∧
      rm.color = updMemberReq1.color.or memberRec1.color) ∧
    (∃ rg sg, update_tag store1 "g1" updTagReq1 "t9" = (.ok rg, sg) ∧
      get_tag sg "g1" = some rg ∧
      rg.created_at = tagRec1.created_at ∧
      rg.created_by = tagRec1.created_by ∧
      rg.name = updTagReq1.name.getD tagRec1.name ∧
      rg.search_keywords = updTagReq1.search_keywords.or tagRec1.search_keywords ∧
      rg.hinweise = updTagReq1.hinweise.or tagRec1.hinweise ∧
      rg.copy_paste_text = updTagReq1.copy_paste_text.or tagRec1.copy_paste_text ∧
      rg.color = updTagReq1.color.or tagRec1.color ∧
      rg.is_super_tag = updTagReq1.is_super_tag.or tagRec1.is_super_tag ∧
      rg.is_gvpl_tag = updTagReq1.is_gvpl_tag.or tagRec1.is_gvpl_tag) ∧
    (∃ rt st2, update_topic store1 "t1" updTopicReq1 "t9" = (.ok rt, st2) ∧
      get_topic st2 "t1" = some rt ∧
      rt.header = updTopicReq1.header.getD topicRec1.header ∧
      rt.description = updTopicReq1.description.or topicRec1.description ∧
      rt.tags = updTopicReq1.tags.or topicRec1.tags ∧
      rt.search_keywords = updTopicReq1.search_keywords.or topicRec1.search_keywords ∧
      rt.validity = updTopicReq1.validity.getD topicRec1.validity ∧
      rt.notes = updTopicReq1.notes.or topicRec1.notes ∧
      rt.raci = updTopicReq1.raci.getD topicRec1.raci ∧
      rt.priority = updTopicReq1.priority.or topicRec1.priority ∧
      rt.has_file_number = updTopicReq1.has_file_number.or topicRec1.has_file_number ∧
      rt.file_number = updTopicReq1.file_number.or topicRec1.file_number ∧
      rt.has_shared_file_path
        = updTopicReq1.has_shared_file_path.or topicRec1.has_shared_file_path ∧
      rt.shared_file_path = updTopicReq1.shared_file_path.or topicRec1.shared_file_path ∧
      rt.size = updTopicReq1.size.or topicRec1.size) :=
  c5_partial_update_is_shallow_merge store1 "t9" "m1" "g1" "t1"
    updMemberReq1 updTagReq1 updTopicReq1 memberRec1 tagRec1 topicRec1
    (by rfl) (Or.inr (by rfl)) (by rfl) (Or.inr (by rfl)) (by rfl) (Or.inr (by rfl))

/-- C7: create followed by get (with no intervening writes) returns a record
equal to the created one: every request-supplied field — including the
JSON-encoded list fields (tags, search keywords, RACI consulted/informed
sets) and the size enumeration, which cross the storage boundary encoded —
comes back unchanged, and the server-assigned fields are the fresh identity,
the call timestamp and version 1. -/
theorem c7_create_then_get_round_trip
    (s : Store) (now : String) (idm idg idt : String)
    (mreq : CreateMemberRequest) (greq : CreateTagRequest) (treq : CreateTopicRequest)
    (hfm : s.members.any (fun r => r.id == idm) = false)
    (hfg : s.tags.any (fun r => r.id == idg) = false)
    (hft : s.topics.any (fun r => r.id == idt) = false) :
    (∃ m sm, create_member s idm now mreq = (.ok m, sm) ∧
      get_member sm idm = some m ∧
      m.id = idm ∧ m.version = 1 ∧ m.updated_at = now ∧
      m.display_name = mreq.display_name ∧ m.email = mreq.email ∧
      m.active = mreq.active ∧ m.tags = mreq.tags ∧ m.color = mreq.color) ∧
    (∃ g sg, create_tag s idg now greq = (.ok g, sg) ∧
      get_tag sg idg = some g ∧
      g.id = idg ∧ g.version = 1 ∧ g.created_at = now ∧ g.modified_at = now ∧
      g.name = greq.name ∧ g.search_keywords = greq.search_keywords ∧
      g.hinweise = greq.hinweise ∧ g.copy_paste_text = greq.copy_paste_text ∧
      g.color = greq.color ∧ g.is_super_tag = greq.is_super_tag ∧
      g.is_gvpl_tag = greq.is_gvpl_tag ∧ g.created_by = greq.created_by) ∧
    (∃ t st2, create_topic s idt now treq = (.ok t, st2) ∧
      get_topic st2 idt = some t ∧
      t.id = idt ∧ t.version = 1 ∧ t.updated_at = now ∧
      t.header = treq.header ∧ t.description = treq.description ∧
      t.tags = treq.tags ∧ t.search_keywords = treq.search_keywords ∧
      t.validity = treq.validity.getD TopicValidity.default ∧
      t.notes = treq.notes ∧ t.raci = treq.raci ∧ t.priority = treq.priority ∧
      t.has_file_number = treq.has_file_number ∧ t.file_number = treq.file_number ∧
      t.has_shared_file_path = treq.has_shared_file_path ∧
      t.shared_file_path = treq.shared_file_path ∧ t.size = treq.size) := by
  exact ⟨⟨_, _, create_member_ok s idm now mreq hfm,
      get_member_append_fresh s idm now (createdMember idm now mreq) rfl hfm,
      rfl, rfl, rfl, rfl, rfl, rfl, rfl, rfl⟩,
    ⟨_, _, create_tag_ok s idg now greq hfg,
      get_tag_append_fresh s idg now (createdTag idg now greq) rfl hfg,
      rfl, rfl, rfl, rfl, rfl, rfl, rfl, rfl, rfl, rfl, rfl, rfl⟩,
    ⟨_, _, create_topic_ok s idt now treq hft,
      get_topic_append_fresh s idt now (createdTopic idt now treq) rfl hft,
      rfl, rfl, rfl, rfl, rfl, rfl, rfl, rfl, rfl, rfl, rfl, rfl, rfl, rfl, rfl, rfl⟩⟩

theorem c7_witness :
    (∃ m sm, create_member store1 "m2" "t9" creMemberReq1 = (.ok m, sm) ∧
      get_member sm "m2" = some m ∧
      m.id = "m2" ∧ m.version = 1 ∧ m.updated_at = "t9" ∧
      m.display_name = creMemberReq1.display_name ∧ m.email = creMemberReq1.email ∧
      m.active = creMemberReq1.active ∧ m.tags = creMemberReq1.tags ∧
      m.color = creMemberReq1.color) ∧
    (∃ g sg, create_tag store1 "g2" "t9" creTagReq1 = (.ok g, sg) ∧
      get_tag sg "g2" = some g ∧
      g.id = "g2" ∧ g.version = 1 ∧ g.created_at = "t9" ∧ g.modified_at = "t9" ∧
      g.name = creTagReq1.name ∧ g.search_keywords = creTagReq1.search_keywords ∧
      g.hinweise = creTagReq1.hinweise ∧ g.copy_paste_text = creTagReq1.copy_paste_text ∧
      g.color = creTagReq1.color ∧ g.is_super_tag = creTagReq1.is_super_tag ∧
      g.is_gvpl_tag = creTagReq1.is_gvpl_tag ∧ g.created_by = creTagReq1.created_by) ∧
    (∃ t st2, create_topic store1 "t3" "t9" creTopicReq1 = (.ok t, st2) ∧
      get_topic st2 "t3" = some t ∧
      t.id = "t3" ∧ t.version = 1 ∧ t.updated_at = "t9" ∧
      t.header = creTopicReq1.header ∧ t.description = creTopicReq1.description ∧
      t.tags = creTopicReq1.tags ∧ t.search_keywords = creTopicReq1.search_keywords ∧
      t.validity = creTopicReq1.validity.getD TopicValidity.default ∧
      t.notes = creTopicReq1.notes ∧ t.raci = creTopicReq1.raci ∧
      t.priority = creTopicReq1.priority ∧
      t.has_file_number = creTopicReq1.has_file_number ∧
      t.file_number = creTopicReq1.file_number ∧
      t.has_shared_file_path = creTopicReq1.has_shared_file_path ∧
      t.shared_file_path = creTopicReq1.shared_file_path ∧
      t.size = creTopicReq1.size) :=
  c7_create_then_get_round_trip store1 "t9" "m2" "g2" "t3"
    creMemberReq1 creTagReq1 creTopicReq1 (by rfl) (by rfl) (by rfl)

/-- C1: a batch update over distinct topics is atomic with a single revision
bump. If every listed topic exists and passes its version check, the call
succeeds, returns one updated record per listed update (in order, with the
listed identity), stores each listed topic with its version incremented by 1,
leaves unlisted topics untouched, and increases the global revision by
exactly 1 — not once per record. If any listed topic is missing or fails its
version check, the whole call returns an error and the store — every topic
row and the revision — is exactly unchanged. -/
theorem c1_batch_update_atomic_single_revision
    (s : Store) (updates : List (String × UpdateTopicRequest)) (now : String)
    (hnd : (updates.map Prod.fst).Nodup) :
    (batchPre s.topics updates = true →
      ∃ ts s2, batch_update_topics s updates now = (.ok ts, s2) ∧
        ts.length = updates.length ∧
        (∀ p ∈ ts.zip updates, p.1.id = p.2.1) ∧
        s2.revision_id = s.revision_id + 1 ∧
        (∀ u ∈ updates, ∃ rOld rNew,
          s.topics.find? (fun r => r.id == u.1) = some rOld ∧
          s2.topics.find? (fun r => r.id == u.1) = some rNew ∧
          rNew.version = rOld.version + 1) ∧
        (∀ id2, (∀ u ∈ updates, u.1 ≠ id2) →
          s2.topics.find? (fun r => r.id == id2)
            = s.topics.find? (fun r => r.id == id2))) ∧
    (batchPre s.topics updates = false →
      ∃ e, batch_update_topics s updates now = (.error e, s)) := by
  constructor
  · intro hpre
    obtain ⟨ts, rows2, hloop, hlen, hzip, hupd, hframe⟩ :=
      batchLoop_ok updates s.topics now hnd hpre
    have hs2 : batch_update_topics s updates now
        = (.ok ts,
           { s with topics := rows2
                    revision_id := s.revision_id + 1
                    generated_at := now }) := by
      unfold batch_update_topics
      rw [hloop]
    exact ⟨ts, _, hs2, hlen, hzip, rfl, hupd, hframe⟩
  · intro hpre
    obtain ⟨e, hloop⟩ := batchLoop_fail updates s.topics now hnd hpre
    refine ⟨e, ?_⟩
    unfold batch_update_topics
    rw [hloop]

def batchUpdates1 : List (String × UpdateTopicRequest) :=
  [("t1", updTopicReq1), ("t2", updTopicReq2)]

theorem c1_witness :
    ∃ ts s2, batch_update_topics store1 batchUpdates1 "t9" = (.ok ts, s2) ∧
      ts.length = batchUpdates1.length ∧
      (∀ p ∈ ts.zip batchUpdates1, p.1.id = p.2.1) ∧
      s2.revision_id = store1.revision_id + 1 ∧
      (∀ u ∈ batchUpdates1, ∃ rOld rNew,
        store1.topics.find? (fun r => r.id == u.1) = some rOld ∧
        s2.topics.find? (fun r => r.id == u.1) = some rNew ∧
        rNew.version = rOld.version + 1) ∧
      (∀ id2, (∀ u ∈ batchUpdates1, u.1 ≠ id2) →
        s2.topics.find? (fun r => r.id == id2)
          = store1.topics.find? (fun r => r.id == id2)) :=
  (c1_batch_update_atomic_single_revision store1 batchUpdates1 "t9" (by decide)).1
    (by rfl)
